import Mathlib

/-!
# The `blas` package: declarations and interface

A shallow embedding of `blas/blas.go`. The package consists of two parameter
records, a block of rune constants and the interface `BLAS`; it has no
function bodies. The embedding therefore records every declaration as data
(names, Go types, doc comments, section headers), and the theorems below are
statements about that declared catalog.
-/

namespace Blas

/-- Go types that occur in the package. -/
inductive GoType where
  | float32
  | float64
  | complex64
  | complex128
  | int
  | rune
  | slice (elem : GoType)
  | named (name : String)
  deriving DecidableEq, Repr

/-- A named, typed slot: a struct field, a parameter or a result. -/
structure Field where
  name : String
  ty : GoType
  deriving DecidableEq, Repr

/-- A struct type declaration. -/
structure StructDecl where
  name : String
  fields : List Field
  deriving DecidableEq, Repr

/-- A constant of the `const` block, with the comment that precedes it. -/
structure Const where
  doc : String
  name : String
  ty : GoType
  value : Char
  deriving DecidableEq, Repr

/-- A method of the interface: the level and section headers it stands
under, the comment that precedes it, its name, parameters and results
(grouped declarations such as `a, b float32` are expanded). -/
structure Method where
  level : Nat
  sect : String
  doc : String
  name : String
  params : List Field
  results : List Field
  deriving DecidableEq, Repr

/-- Record `type SParams struct`. -/
def SParams : StructDecl :=
  { name := "SParams",
    fields := [⟨"FLAG", .float32⟩, ⟨"H11", .float32⟩, ⟨"H21", .float32⟩,
               ⟨"H12", .float32⟩, ⟨"H22", .float32⟩] }

/-- Record `type DParams struct`. -/
def DParams : StructDecl :=
  { name := "DParams",
    fields := [⟨"FLAG", .float64⟩, ⟨"H11", .float64⟩, ⟨"H21", .float64⟩,
               ⟨"H12", .float64⟩, ⟨"H23", .float64⟩] }

/-- Constant `TransN = rune('N')`. -/
def TransN : Const :=
  ⟨"TransN means TRANS = 'N'  y := alpha*A*x + beta*y.", "TransN", .rune, 'N'⟩

/-- Constant `TransT = rune('T')`. -/
def TransT : Const :=
  ⟨"TransT means TRANS = 'T'  y := alpha*A**T*x + beta*y.", "TransT", .rune, 'T'⟩

/-- Constant `TransC = rune('C')`. -/
def TransC : Const :=
  ⟨"TransC means TRANS = 'C'  y := alpha*A**T*x + beta*y.", "TransC", .rune, 'C'⟩

/-- Constant `UploU = rune('U')`. -/
def UploU : Const :=
  ⟨"UploU means UPLO = 'U' Only the upper triangular part of A is to be referenced.",
   "UploU", .rune, 'U'⟩

/-- Constant `UploL = rune('L')`. -/
def UploL : Const :=
  ⟨"UploL means UPLO = 'L' Only the lower triangular part of A is to be referenced.",
   "UploL", .rune, 'L'⟩

/-- Constant `DiagU = rune('U')`. -/
def DiagU : Const :=
  ⟨"DiagU means DIAG = 'U' or 'u'   A is assumed to be unit triangular.", "DiagU", .rune, 'U'⟩

/-- Constant `DiagN = rune('N')`. -/
def DiagN : Const :=
  ⟨"DiagN means DIAG = 'N' or 'n'   A is not assumed to be unit triangular.",
   "DiagN", .rune, 'N'⟩

/-- The `const` block, in declaration order. -/
def consts : List Const := [TransN, TransT, TransC, UploU, UploL, DiagU, DiagN]

/-- Comments inside `BLAS` that announce a method but are followed by no
declaration, with the level and section they stand under. -/
def undeclared : List (Nat × String × String) :=
  [(1, "DOUBLE COMPLEX", "ZROTG setup Givens rotation"),
   (1, "DOUBLE COMPLEX", "ZDROTF apply Givens rotation")]

/-- Line 53 of `blas.go`:
`SROTG(a, b float32) (c, s float32)`. -/
def SROTG : Method :=
  { level := 1, sect := "SINGLE", name := "SROTG",
    doc := "SROTG setup Givens rotation",
    params := [⟨"a", .float32⟩, ⟨"b", .float32⟩],
    results := [⟨"c", .float32⟩, ⟨"s", .float32⟩] }

/-- Line 56 of `blas.go`:
`SROTMG(d1, d2, x, y float32) (rd1, rd2, rx float32, p SParams)`. -/
def SROTMG : Method :=
  { level := 1, sect := "SINGLE", name := "SROTMG",
    doc := "SROTMG setup modified Givens rotation",
    params := [⟨"d1", .float32⟩, ⟨"d2", .float32⟩, ⟨"x", .float32⟩, ⟨"y", .float32⟩],
    results := [⟨"rd1", .float32⟩, ⟨"rd2", .float32⟩, ⟨"rx", .float32⟩, ⟨"p", (.named "SParams")⟩] }

/-- Line 59 of `blas.go`:
`SROT(n int, x []float32, incX int, y []float32, incY int, c, s float32) (ry []float32)`. -/
def SROT : Method :=
  { level := 1, sect := "SINGLE", name := "SROT",
    doc := "SROT apply Givens rotation",
    params := [⟨"n", .int⟩, ⟨"x", (.slice .float32)⟩, ⟨"incX", .int⟩, ⟨"y", (.slice .float32)⟩,
               ⟨"incY", .int⟩, ⟨"c", .float32⟩, ⟨"s", .float32⟩],
    results := [⟨"ry", (.slice .float32)⟩] }

/-- Line 62 of `blas.go`:
`SROTM(n int, x []float32, incX int, y []float32, incY int, p SParams) (rx, ry []float32)`. -/
def SROTM : Method :=
  { level := 1, sect := "SINGLE", name := "SROTM",
    doc := "SROTM apply modified Givens rotation",
    params := [⟨"n", .int⟩, ⟨"x", (.slice .float32)⟩, ⟨"incX", .int⟩, ⟨"y", (.slice .float32)⟩,
               ⟨"incY", .int⟩, ⟨"p", (.named "SParams")⟩],
    results := [⟨"rx", (.slice .float32)⟩, ⟨"ry", (.slice .float32)⟩] }

/-- Line 65 of `blas.go`:
`SSWAP(n int, x []float32, incX int, y []float32, incY int) (rx, ry []float32)`. -/
def SSWAP : Method :=
  { level := 1, sect := "SINGLE", name := "SSWAP",
    doc := "SSWAP swap x and y",
    params := [⟨"n", .int⟩, ⟨"x", (.slice .float32)⟩, ⟨"incX", .int⟩, ⟨"y", (.slice .float32)⟩,
               ⟨"incY", .int⟩],
    results := [⟨"rx", (.slice .float32)⟩, ⟨"ry", (.slice .float32)⟩] }

/-- Line 68 of `blas.go`:
`SSCAL(n int, alpha float32, x []float32, incX int) (rx []float32)`. -/
def SSCAL : Method :=
  { level := 1, sect := "SINGLE", name := "SSCAL",
    doc := "SSCAL x = a*x",
    params := [⟨"n", .int⟩, ⟨"alpha", .float32⟩, ⟨"x", (.slice .float32)⟩, ⟨"incX", .int⟩],
    results := [⟨"rx", (.slice .float32)⟩] }

/-- Line 71 of `blas.go`:
`SCOPY(n int, x []float32, incX int, y []float32, incY int) (ry []float32)`. -/
def SCOPY : Method :=
  { level := 1, sect := "SINGLE", name := "SCOPY",
    doc := "SCOPY copy x into y",
    params := [⟨"n", .int⟩, ⟨"x", (.slice .float32)⟩, ⟨"incX", .int⟩, ⟨"y", (.slice .float32)⟩,
               ⟨"incY", .int⟩],
    results := [⟨"ry", (.slice .float32)⟩] }

/-- Line 74 of `blas.go`:
`SAXPY(n int, alpha float32, x []float32, incX int, y []float32, incY int) (ry []float32)`. -/
def SAXPY : Method :=
  { level := 1, sect := "SINGLE", name := "SAXPY",
    doc := "SAXPY y = a*x + y",
    params := [⟨"n", .int⟩, ⟨"alpha", .float32⟩, ⟨"x", (.slice .float32)⟩, ⟨"incX", .int⟩,
               ⟨"y", (.slice .float32)⟩, ⟨"incY", .int⟩],
    results := [⟨"ry", (.slice .float32)⟩] }

/-- Line 77 of `blas.go`:
`SDOT(n int, x []float32, incX int, y []float32, incY int) (r float32)`. -/
def SDOT : Method :=
  { level := 1, sect := "SINGLE", name := "SDOT",
    doc := "SDOT dot product",
    params := [⟨"n", .int⟩, ⟨"x", (.slice .float32)⟩, ⟨"incX", .int⟩, ⟨"y", (.slice .float32)⟩,
               ⟨"incY", .int⟩],
    results := [⟨"r", .float32⟩] }

/-- Line 80 of `blas.go`:
`SDSDOT(n int, alpha float32, x []float32, incX int, y []float32, incY int) (r float32)`. -/
def SDSDOT : Method :=
  { level := 1, sect := "SINGLE", name := "SDSDOT",
    doc := "SDSDOT dot product with extended precision accumulation",
    params := [⟨"n", .int⟩, ⟨"alpha", .float32⟩, ⟨"x", (.slice .float32)⟩, ⟨"incX", .int⟩,
               ⟨"y", (.slice .float32)⟩, ⟨"incY", .int⟩],
    results := [⟨"r", .float32⟩] }

/-- Line 83 of `blas.go`:
`SNRM2(n int, x []float32, incX int) (r float32)`. -/
def SNRM2 : Method :=
  { level := 1, sect := "SINGLE", name := "SNRM2",
    doc := "SNRM2 Euclidean norm",
    params := [⟨"n", .int⟩, ⟨"x", (.slice .float32)⟩, ⟨"incX", .int⟩],
    results := [⟨"r", .float32⟩] }

/-- Line 86 of `blas.go`:
`SCNRM2(n int, x []complex64, incX int) (r float32)`. -/
def SCNRM2 : Method :=
  { level := 1, sect := "SINGLE", name := "SCNRM2",
    doc := "SCNRM2 Euclidean norm",
    params := [⟨"n", .int⟩, ⟨"x", (.slice .complex64)⟩, ⟨"incX", .int⟩],
    results := [⟨"r", .float32⟩] }

/-- Line 89 of `blas.go`:
`SASUM(n int, x []float32, incX int) (r float32)`. -/
def SASUM : Method :=
  { level := 1, sect := "SINGLE", name := "SASUM",
    doc := "SASUM sum of absolute values",
    params := [⟨"n", .int⟩, ⟨"x", (.slice .float32)⟩, ⟨"incX", .int⟩],
    results := [⟨"r", .float32⟩] }

/-- Line 92 of `blas.go`:
`ISAMAX(n int, x []float32, incX int) (r int)`. -/
def ISAMAX : Method :=
  { level := 1, sect := "SINGLE", name := "ISAMAX",
    doc := "ISAMAX index of max abs value",
    params := [⟨"n", .int⟩, ⟨"x", (.slice .float32)⟩, ⟨"incX", .int⟩],
    results := [⟨"r", .int⟩] }

/-- Line 99 of `blas.go`:
`DROTG(a, b float64) (c, s float64)`. -/
def DROTG : Method :=
  { level := 1, sect := "DOUBLE", name := "DROTG",
    doc := "DROTG setup Givens rotation",
    params := [⟨"a", .float64⟩, ⟨"b", .float64⟩],
    results := [⟨"c", .float64⟩, ⟨"s", .float64⟩] }

/-- Line 102 of `blas.go`:
`DROTMG(d1, d2, x, y float64) (rd1, rd2, rx float64, p DParams)`. -/
def DROTMG : Method :=
  { level := 1, sect := "DOUBLE", name := "DROTMG",
    doc := "DROTMG setup modified Givens rotation",
    params := [⟨"d1", .float64⟩, ⟨"d2", .float64⟩, ⟨"x", .float64⟩, ⟨"y", .float64⟩],
    results := [⟨"rd1", .float64⟩, ⟨"rd2", .float64⟩, ⟨"rx", .float64⟩, ⟨"p", (.named "DParams")⟩] }

/-- Line 105 of `blas.go`:
`DROT(n int, x []float64, incX int, y []float64, incY int, c float64, s float64) (ry []float64)`. -/
def DROT : Method :=
  { level := 1, sect := "DOUBLE", name := "DROT",
    doc := "DROT apply Givens rotation",
    params := [⟨"n", .int⟩, ⟨"x", (.slice .float64)⟩, ⟨"incX", .int⟩, ⟨"y", (.slice .float64)⟩,
               ⟨"incY", .int⟩, ⟨"c", .float64⟩, ⟨"s", .float64⟩],
    results := [⟨"ry", (.slice .float64)⟩] }

/-- Line 108 of `blas.go`:
`DROTM(n int, x []float64, incX int, y []float64, incY int, p DParams) (rx, ry []float64)`. -/
def DROTM : Method :=
  { level := 1, sect := "DOUBLE", name := "DROTM",
    doc := "DROTM apply modified Givens rotation",
    params := [⟨"n", .int⟩, ⟨"x", (.slice .float64)⟩, ⟨"incX", .int⟩, ⟨"y", (.slice .float64)⟩,
               ⟨"incY", .int⟩, ⟨"p", (.named "DParams")⟩],
    results := [⟨"rx", (.slice .float64)⟩, ⟨"ry", (.slice .float64)⟩] }

/-- Line 111 of `blas.go`:
`DSWAP(n int, x []float64, incX int, y []float64, incY int) (rx, ry []float64)`. -/
def DSWAP : Method :=
  { level := 1, sect := "DOUBLE", name := "DSWAP",
    doc := "DSWAP swap x and y",
    params := [⟨"n", .int⟩, ⟨"x", (.slice .float64)⟩, ⟨"incX", .int⟩, ⟨"y", (.slice .float64)⟩,
               ⟨"incY", .int⟩],
    results := [⟨"rx", (.slice .float64)⟩, ⟨"ry", (.slice .float64)⟩] }

/-- Line 114 of `blas.go`:
`DSCAL(n int, alpha float64, x []float64, incX int) (rx []float64)`. -/
def DSCAL : Method :=
  { level := 1, sect := "DOUBLE", name := "DSCAL",
    doc := "DSCAL x = a*x",
    params := [⟨"n", .int⟩, ⟨"alpha", .float64⟩, ⟨"x", (.slice .float64)⟩, ⟨"incX", .int⟩],
    results := [⟨"rx", (.slice .float64)⟩] }

/-- Line 117 of `blas.go`:
`DCOPY(n int, x []float64, incX int, y []float64, incY int) (ry []float64)`. -/
def DCOPY : Method :=
  { level := 1, sect := "DOUBLE", name := "DCOPY",
    doc := "DCOPY copy x into y",
    params := [⟨"n", .int⟩, ⟨"x", (.slice .float64)⟩, ⟨"incX", .int⟩, ⟨"y", (.slice .float64)⟩,
               ⟨"incY", .int⟩],
    results := [⟨"ry", (.slice .float64)⟩] }

/-- Line 120 of `blas.go`:
`DAXPY(n int, alpha float64, x []float64, incX int, y []float64, incY int) (ry []float64)`. -/
def DAXPY : Method :=
  { level := 1, sect := "DOUBLE", name := "DAXPY",
    doc := "DAXPY y = a*x + y",
    params := [⟨"n", .int⟩, ⟨"alpha", .float64⟩, ⟨"x", (.slice .float64)⟩, ⟨"incX", .int⟩,
               ⟨"y", (.slice .float64)⟩, ⟨"incY", .int⟩],
    results := [⟨"ry", (.slice .float64)⟩] }

/-- Line 123 of `blas.go`:
`DDOT(n int, x []float64, incX int, y []float64, incY int) (r float64)`. -/
def DDOT : Method :=
  { level := 1, sect := "DOUBLE", name := "DDOT",
    doc := "DDOT dot product",
    params := [⟨"n", .int⟩, ⟨"x", (.slice .float64)⟩, ⟨"incX", .int⟩, ⟨"y", (.slice .float64)⟩,
               ⟨"incY", .int⟩],
    results := [⟨"r", .float64⟩] }

/-- Line 126 of `blas.go`:
`DSDOT(n int, x []float32, incX int, y []float32, incY int) (r float64)`. -/
def DSDOT : Method :=
  { level := 1, sect := "DOUBLE", name := "DSDOT",
    doc := "DSDOT dot product with extended precision accumulation",
    params := [⟨"n", .int⟩, ⟨"x", (.slice .float32)⟩, ⟨"incX", .int⟩, ⟨"y", (.slice .float32)⟩,
               ⟨"incY", .int⟩],
    results := [⟨"r", .float64⟩] }

/-- Line 129 of `blas.go`:
`DNRM2(n int, x []float64, incX int) (r float64)`. -/
def DNRM2 : Method :=
  { level := 1, sect := "DOUBLE", name := "DNRM2",
    doc := "DNRM2 Euclidean norm",
    params := [⟨"n", .int⟩, ⟨"x", (.slice .float64)⟩, ⟨"incX", .int⟩],
    results := [⟨"r", .float64⟩] }

/-- Line 132 of `blas.go`:
`DZNRM2(n int, x []complex128, incX int) (r float64)`. -/
def DZNRM2 : Method :=
  { level := 1, sect := "DOUBLE", name := "DZNRM2",
    doc := "DZNRM2 Euclidean norm",
    params := [⟨"n", .int⟩, ⟨"x", (.slice .complex128)⟩, ⟨"incX", .int⟩],
    results := [⟨"r", .float64⟩] }

/-- Line 135 of `blas.go`:
`DASUM(n int, x []float64, incX int) (r float64)`. -/
def DASUM : Method :=
  { level := 1, sect := "DOUBLE", name := "DASUM",
    doc := "DASUM sum of absolute values",
    params := [⟨"n", .int⟩, ⟨"x", (.slice .float64)⟩, ⟨"incX", .int⟩],
    results := [⟨"r", .float64⟩] }

/-- Line 138 of `blas.go`:
`IDAMAX(n int, x []float64, incX int) (r int)`. -/
def IDAMAX : Method :=
  { level := 1, sect := "DOUBLE", name := "IDAMAX",
    doc := "IDAMAX index of max abs value",
    params := [⟨"n", .int⟩, ⟨"x", (.slice .float64)⟩, ⟨"incX", .int⟩],
    results := [⟨"r", .int⟩] }

/-- Line 145 of `blas.go`:
`CROTG(a, b complex64) (c, s complex64)`. -/
def CROTG : Method :=
  { level := 1, sect := "COMPLEX", name := "CROTG",
    doc := "CROTG setup Givens rotation",
    params := [⟨"a", .complex64⟩, ⟨"b", .complex64⟩],
    results := [⟨"c", .complex64⟩, ⟨"s", .complex64⟩] }

/-- Line 148 of `blas.go`:
`CSROT(n int, x []complex64, incX int, y []complex64, incY int, c, s complex64) (ry []complex64)`. -/
def CSROT : Method :=
  { level := 1, sect := "COMPLEX", name := "CSROT",
    doc := "CSROT apply Givens rotation",
    params := [⟨"n", .int⟩, ⟨"x", (.slice .complex64)⟩, ⟨"incX", .int⟩, ⟨"y", (.slice .complex64)⟩,
               ⟨"incY", .int⟩, ⟨"c", .complex64⟩, ⟨"s", .complex64⟩],
    results := [⟨"ry", (.slice .complex64)⟩] }

/-- Line 151 of `blas.go`:
`CSWAP(n int, x []complex64, incX int, y []complex64, incY int) (rx, ry []complex64)`. -/
def CSWAP : Method :=
  { level := 1, sect := "COMPLEX", name := "CSWAP",
    doc := "CSWAP swap x and y",
    params := [⟨"n", .int⟩, ⟨"x", (.slice .complex64)⟩, ⟨"incX", .int⟩, ⟨"y", (.slice .complex64)⟩,
               ⟨"incY", .int⟩],
    results := [⟨"rx", (.slice .complex64)⟩, ⟨"ry", (.slice .complex64)⟩] }

/-- Line 154 of `blas.go`:
`CSCAL(n int, alpha complex64, x []complex64, incX int) (rx []complex64)`. -/
def CSCAL : Method :=
  { level := 1, sect := "COMPLEX", name := "CSCAL",
    doc := "CSCAL x = a*x",
    params := [⟨"n", .int⟩, ⟨"alpha", .complex64⟩, ⟨"x", (.slice .complex64)⟩, ⟨"incX", .int⟩],
    results := [⟨"rx", (.slice .complex64)⟩] }

/-- Line 157 of `blas.go`:
`CSSCAL(n int, alpha float32, x []complex64, incX int) (rx []complex64)`. -/
def CSSCAL : Method :=
  { level := 1, sect := "COMPLEX", name := "CSSCAL",
    doc := "CSSCAL x = a*x",
    params := [⟨"n", .int⟩, ⟨"alpha", .float32⟩, ⟨"x", (.slice .complex64)⟩, ⟨"incX", .int⟩],
    results := [⟨"rx", (.slice .complex64)⟩] }

/-- Line 160 of `blas.go`:
`CCOPY(n int, x []complex64, incX int, y []complex64, incY int) (ry []complex64)`. -/
def CCOPY : Method :=
  { level := 1, sect := "COMPLEX", name := "CCOPY",
    doc := "CCOPY copy x into y",
    params := [⟨"n", .int⟩, ⟨"x", (.slice .complex64)⟩, ⟨"incX", .int⟩, ⟨"y", (.slice .complex64)⟩,
               ⟨"incY", .int⟩],
    results := [⟨"ry", (.slice .complex64)⟩] }

/-- Line 163 of `blas.go`:
`CAXPY(n int, alpha complex64, x []complex64, incX int, y []complex64, incY int) (ry []complex64)`. -/
def CAXPY : Method :=
  { level := 1, sect := "COMPLEX", name := "CAXPY",
    doc := "CAXPY y = a*x + y",
    params := [⟨"n", .int⟩, ⟨"alpha", .complex64⟩, ⟨"x", (.slice .complex64)⟩, ⟨"incX", .int⟩,
               ⟨"y", (.slice .complex64)⟩, ⟨"incY", .int⟩],
    results := [⟨"ry", (.slice .complex64)⟩] }

/-- Line 166 of `blas.go`:
`CDOTU(n int, x []complex64, incX int, y []complex64, incY int) (r complex64)`. -/
def CDOTU : Method :=
  { level := 1, sect := "COMPLEX", name := "CDOTU",
    doc := "CDOTU dot product",
    params := [⟨"n", .int⟩, ⟨"x", (.slice .complex64)⟩, ⟨"incX", .int⟩, ⟨"y", (.slice .complex64)⟩,
               ⟨"incY", .int⟩],
    results := [⟨"r", .complex64⟩] }

/-- Line 169 of `blas.go`:
`CDOTC(n int, x []complex64, incX int, y []complex64, incY int) (r complex64)`. -/
def CDOTC : Method :=
  { level := 1, sect := "COMPLEX", name := "CDOTC",
    doc := "CDOTC dot product, conjugating the first vector",
    params := [⟨"n", .int⟩, ⟨"x", (.slice .complex64)⟩, ⟨"incX", .int⟩, ⟨"y", (.slice .complex64)⟩,
               ⟨"incY", .int⟩],
    results := [⟨"r", .complex64⟩] }

/-- Line 172 of `blas.go`:
`SCASUM(n int, x []complex64, incX int) (r float32)`. -/
def SCASUM : Method :=
  { level := 1, sect := "COMPLEX", name := "SCASUM",
    doc := "SCASUM sum of absolute values",
    params := [⟨"n", .int⟩, ⟨"x", (.slice .complex64)⟩, ⟨"incX", .int⟩],
    results := [⟨"r", .float32⟩] }

/-- Line 175 of `blas.go`:
`ICAMAX(n int, x []complex64, incX int) (r int)`. -/
def ICAMAX : Method :=
  { level := 1, sect := "COMPLEX", name := "ICAMAX",
    doc := "ICAMAX index of max abs value",
    params := [⟨"n", .int⟩, ⟨"x", (.slice .complex64)⟩, ⟨"incX", .int⟩],
    results := [⟨"r", .int⟩] }

/-- Line 186 of `blas.go`:
`ZSWAP(n int, x []complex128, incX int, y []complex128, incY int) (rx []complex128, ry []complex128)`. -/
def ZSWAP : Method :=
  { level := 1, sect := "DOUBLE COMPLEX", name := "ZSWAP",
    doc := "ZSWAP swap x and y",
    params := [⟨"n", .int⟩, ⟨"x", (.slice .complex128)⟩, ⟨"incX", .int⟩,
               ⟨"y", (.slice .complex128)⟩, ⟨"incY", .int⟩],
    results := [⟨"rx", (.slice .complex128)⟩, ⟨"ry", (.slice .complex128)⟩] }

/-- Line 189 of `blas.go`:
`ZSCAL(n int, alpha complex128, x []complex128, incX int) (rx []complex128)`. -/
def ZSCAL : Method :=
  { level := 1, sect := "DOUBLE COMPLEX", name := "ZSCAL",
    doc := "ZSCAL x = a*x",
    params := [⟨"n", .int⟩, ⟨"alpha", .complex128⟩, ⟨"x", (.slice .complex128)⟩, ⟨"incX", .int⟩],
    results := [⟨"rx", (.slice .complex128)⟩] }

/-- Line 192 of `blas.go`:
`ZDSCAL(n int, alpha float64, x []complex128, incX int) (rx []complex128)`. -/
def ZDSCAL : Method :=
  { level := 1, sect := "DOUBLE COMPLEX", name := "ZDSCAL",
    doc := "ZDSCAL x = a*x",
    params := [⟨"n", .int⟩, ⟨"alpha", .float64⟩, ⟨"x", (.slice .complex128)⟩, ⟨"incX", .int⟩],
    results := [⟨"rx", (.slice .complex128)⟩] }

/-- Line 195 of `blas.go`:
`ZCOPY(n int, x []complex128, incX int, y []complex128, incY int) (ry []complex128)`. -/
def ZCOPY : Method :=
  { level := 1, sect := "DOUBLE COMPLEX", name := "ZCOPY",
    doc := "ZCOPY copy x into y",
    params := [⟨"n", .int⟩, ⟨"x", (.slice .complex128)⟩, ⟨"incX", .int⟩,
               ⟨"y", (.slice .complex128)⟩, ⟨"incY", .int⟩],
    results := [⟨"ry", (.slice .complex128)⟩] }

/-- Line 198 of `blas.go`:
`ZAXPY(n int, alpha complex128, x []complex128, incX int, y []complex128, incY int) (ry []complex128)`. -/
def ZAXPY : Method :=
  { level := 1, sect := "DOUBLE COMPLEX", name := "ZAXPY",
    doc := "ZAXPY y = a*x + y",
    params := [⟨"n", .int⟩, ⟨"alpha", .complex128⟩, ⟨"x", (.slice .complex128)⟩, ⟨"incX", .int⟩,
               ⟨"y", (.slice .complex128)⟩, ⟨"incY", .int⟩],
    results := [⟨"ry", (.slice .complex128)⟩] }

/-- Line 201 of `blas.go`:
`ZDOTU(n int, x []complex128, incX int, y []complex128, incY int) (r complex128)`. -/
def ZDOTU : Method :=
  { level := 1, sect := "DOUBLE COMPLEX", name := "ZDOTU",
    doc := "ZDOTU dot product",
    params := [⟨"n", .int⟩, ⟨"x", (.slice .complex128)⟩, ⟨"incX", .int⟩,
               ⟨"y", (.slice .complex128)⟩, ⟨"incY", .int⟩],
    results := [⟨"r", .complex128⟩] }

/-- Line 204 of `blas.go`:
`ZDOTC(n int, x []complex128, incX int, y []complex128, incY int) (r complex128)`. -/
def ZDOTC : Method :=
  { level := 1, sect := "DOUBLE COMPLEX", name := "ZDOTC",
    doc := "ZDOTC dot product, conjugating the first vector",
    params := [⟨"n", .int⟩, ⟨"x", (.slice .complex128)⟩, ⟨"incX", .int⟩,
               ⟨"y", (.slice .complex128)⟩, ⟨"incY", .int⟩],
    results := [⟨"r", .complex128⟩] }

/-- Line 207 of `blas.go`:
`DZASUM(n int, x []complex128, incX int) (r float64)`. -/
def DZASUM : Method :=
  { level := 1, sect := "DOUBLE COMPLEX", name := "DZASUM",
    doc := "DZASUM sum of absolute values",
    params := [⟨"n", .int⟩, ⟨"x", (.slice .complex128)⟩, ⟨"incX", .int⟩],
    results := [⟨"r", .float64⟩] }

/-- Line 210 of `blas.go`:
`IZAMAX(n int, x []complex128, incX int) (r int)`. -/
def IZAMAX : Method :=
  { level := 1, sect := "DOUBLE COMPLEX", name := "IZAMAX",
    doc := "IZAMAX index of max abs value",
    params := [⟨"n", .int⟩, ⟨"x", (.slice .complex128)⟩, ⟨"incX", .int⟩],
    results := [⟨"r", .int⟩] }

/-- Line 221 of `blas.go`:
`SGEMV(trans int, m, n int, alpha float32, a []float32, lda int, x []float32, incX int, beta float32, y []float32, incY int) (ry []float32)`. -/
def SGEMV : Method :=
  { level := 2, sect := "SINGLE", name := "SGEMV",
    doc := "SGEMV matrix vector multiply",
    params := [⟨"trans", .int⟩, ⟨"m", .int⟩, ⟨"n", .int⟩, ⟨"alpha", .float32⟩,
               ⟨"a", (.slice .float32)⟩, ⟨"lda", .int⟩, ⟨"x", (.slice .float32)⟩, ⟨"incX", .int⟩,
               ⟨"beta", .float32⟩, ⟨"y", (.slice .float32)⟩, ⟨"incY", .int⟩],
    results := [⟨"ry", (.slice .float32)⟩] }

/-- Line 224 of `blas.go`:
`SGBMV(trans int, m, n, kL, kU int, alpha float32, a []float32, lda int, x []float32, incX int, beta float32, y []float32, incY int) (ry []float32)`. -/
def SGBMV : Method :=
  { level := 2, sect := "SINGLE", name := "SGBMV",
    doc := "SGBMV banded matrix vector multiply",
    params := [⟨"trans", .int⟩, ⟨"m", .int⟩, ⟨"n", .int⟩, ⟨"kL", .int⟩, ⟨"kU", .int⟩,
               ⟨"alpha", .float32⟩, ⟨"a", (.slice .float32)⟩, ⟨"lda", .int⟩,
               ⟨"x", (.slice .float32)⟩, ⟨"incX", .int⟩, ⟨"beta", .float32⟩,
               ⟨"y", (.slice .float32)⟩, ⟨"incY", .int⟩],
    results := [⟨"ry", (.slice .float32)⟩] }

/-- Line 227 of `blas.go`:
`SSYMV(uplo int, n int, alpha float32, a []float32, lda int, x []float32, incX int, beta float32, y []float32, incY int) (ry []float32)`. -/
def SSYMV : Method :=
  { level := 2, sect := "SINGLE", name := "SSYMV",
    doc := "SSYMV symmetric matrix vector multiply",
    params := [⟨"uplo", .int⟩, ⟨"n", .int⟩, ⟨"alpha", .float32⟩, ⟨"a", (.slice .float32)⟩,
               ⟨"lda", .int⟩, ⟨"x", (.slice .float32)⟩, ⟨"incX", .int⟩, ⟨"beta", .float32⟩,
               ⟨"y", (.slice .float32)⟩, ⟨"incY", .int⟩],
    results := [⟨"ry", (.slice .float32)⟩] }

/-- Line 230 of `blas.go`:
`SSBMV(uplo int, n, k int, alpha float32, a []float32, lda int, x []float32, incX int, beta float32, y []float32, incY int) (ry []float32)`. -/
def SSBMV : Method :=
  { level := 2, sect := "SINGLE", name := "SSBMV",
    doc := "SSBMV symmetric banded matrix vector multiply",
    params := [⟨"uplo", .int⟩, ⟨"n", .int⟩, ⟨"k", .int⟩, ⟨"alpha", .float32⟩,
               ⟨"a", (.slice .float32)⟩, ⟨"lda", .int⟩, ⟨"x", (.slice .float32)⟩, ⟨"incX", .int⟩,
               ⟨"beta", .float32⟩, ⟨"y", (.slice .float32)⟩, ⟨"incY", .int⟩],
    results := [⟨"ry", (.slice .float32)⟩] }

/-- Line 233 of `blas.go`:
`SSPMV(uplo int, n int, alpha float32, ap []float32, x []float32, incX int, beta float32, y []float32, incY int) (ry []float32)`. -/
def SSPMV : Method :=
  { level := 2, sect := "SINGLE", name := "SSPMV",
    doc := "SSPMV symmetric packed matrix vector multiply",
    params := [⟨"uplo", .int⟩, ⟨"n", .int⟩, ⟨"alpha", .float32⟩, ⟨"ap", (.slice .float32)⟩,
               ⟨"x", (.slice .float32)⟩, ⟨"incX", .int⟩, ⟨"beta", .float32⟩,
               ⟨"y", (.slice .float32)⟩, ⟨"incY", .int⟩],
    results := [⟨"ry", (.slice .float32)⟩] }

/-- Line 236 of `blas.go`:
`STRMV(uplo int, trans int, diag int, n int, a []float32, lda int, x []float32, incX int) (rx []float32)`. -/
def STRMV : Method :=
  { level := 2, sect := "SINGLE", name := "STRMV",
    doc := "STRMV triangular matrix vector multiply",
    params := [⟨"uplo", .int⟩, ⟨"trans", .int⟩, ⟨"diag", .int⟩, ⟨"n", .int⟩,
               ⟨"a", (.slice .float32)⟩, ⟨"lda", .int⟩, ⟨"x", (.slice .float32)⟩, ⟨"incX", .int⟩],
    results := [⟨"rx", (.slice .float32)⟩] }

/-- Line 239 of `blas.go`:
`STBMV(uplo int, trans int, diag int, n, k int, a []float32, lda int, x []float32, incX int) (rx []float32)`. -/
def STBMV : Method :=
  { level := 2, sect := "SINGLE", name := "STBMV",
    doc := "STBMV triangular banded matrix vector multiply",
    params := [⟨"uplo", .int⟩, ⟨"trans", .int⟩, ⟨"diag", .int⟩, ⟨"n", .int⟩, ⟨"k", .int⟩,
               ⟨"a", (.slice .float32)⟩, ⟨"lda", .int⟩, ⟨"x", (.slice .float32)⟩, ⟨"incX", .int⟩],
    results := [⟨"rx", (.slice .float32)⟩] }

/-- Line 242 of `blas.go`:
`STPMV(uplo int, trans int, diag int, n int, ap []float32, x []float32, incX int) (rx []float32)`. -/
def STPMV : Method :=
  { level := 2, sect := "SINGLE", name := "STPMV",
    doc := "STPMV triangular packed matrix vector multiply",
    params := [⟨"uplo", .int⟩, ⟨"trans", .int⟩, ⟨"diag", .int⟩, ⟨"n", .int⟩,
               ⟨"ap", (.slice .float32)⟩, ⟨"x", (.slice .float32)⟩, ⟨"incX", .int⟩],
    results := [⟨"rx", (.slice .float32)⟩] }

/-- Line 245 of `blas.go`:
`STRSV(uplo int, trans int, diag int, n int, a []float32, lda int, x []float32, incX int) (rx []float32)`. -/
def STRSV : Method :=
  { level := 2, sect := "SINGLE", name := "STRSV",
    doc := "STRSV solving triangular matrix problems",
    params := [⟨"uplo", .int⟩, ⟨"trans", .int⟩, ⟨"diag", .int⟩, ⟨"n", .int⟩,
               ⟨"a", (.slice .float32)⟩, ⟨"lda", .int⟩, ⟨"x", (.slice .float32)⟩, ⟨"incX", .int⟩],
    results := [⟨"rx", (.slice .float32)⟩] }

/-- Line 248 of `blas.go`:
`STBSV(uplo int, trans int, diag int, n, k int, a []float32, lda int, x []float32, incX int) (rx []float32)`. -/
def STBSV : Method :=
  { level := 2, sect := "SINGLE", name := "STBSV",
    doc := "STBSV solving triangular banded matrix problems",
    params := [⟨"uplo", .int⟩, ⟨"trans", .int⟩, ⟨"diag", .int⟩, ⟨"n", .int⟩, ⟨"k", .int⟩,
               ⟨"a", (.slice .float32)⟩, ⟨"lda", .int⟩, ⟨"x", (.slice .float32)⟩, ⟨"incX", .int⟩],
    results := [⟨"rx", (.slice .float32)⟩] }

/-- Line 251 of `blas.go`:
`STPSV(uplo int, trans int, diag int, n int, ap []float32, x []float32, incX int) (rx []float32)`. -/
def STPSV : Method :=
  { level := 2, sect := "SINGLE", name := "STPSV",
    doc := "STPSV solving triangular packed matrix problems",
    params := [⟨"uplo", .int⟩, ⟨"trans", .int⟩, ⟨"diag", .int⟩, ⟨"n", .int⟩,
               ⟨"ap", (.slice .float32)⟩, ⟨"x", (.slice .float32)⟩, ⟨"incX", .int⟩],
    results := [⟨"rx", (.slice .float32)⟩] }

/-- Line 254 of `blas.go`:
`SGER(m, n int, alpha float32, x []float32, incX int, y []float32, incY int, a []float32, lda int) (ra []float32)`. -/
def SGER : Method :=
  { level := 2, sect := "SINGLE", name := "SGER",
    doc := "SGER performs the rank 1 operation A := alpha*x*y' + A",
    params := [⟨"m", .int⟩, ⟨"n", .int⟩, ⟨"alpha", .float32⟩, ⟨"x", (.slice .float32)⟩,
               ⟨"incX", .int⟩, ⟨"y", (.slice .float32)⟩, ⟨"incY", .int⟩, ⟨"a", (.slice .float32)⟩,
               ⟨"lda", .int⟩],
    results := [⟨"ra", (.slice .float32)⟩] }

/-- Line 257 of `blas.go`:
`SSYR(uplo int, n int, alpha float32, x []float32, incX int, a []float32, lda int) (ra []float32)`. -/
def SSYR : Method :=
  { level := 2, sect := "SINGLE", name := "SSYR",
    doc := "SSYR performs the symmetric rank 1 operation A := alpha*x*x' + A",
    params := [⟨"uplo", .int⟩, ⟨"n", .int⟩, ⟨"alpha", .float32⟩, ⟨"x", (.slice .float32)⟩,
               ⟨"incX", .int⟩, ⟨"a", (.slice .float32)⟩, ⟨"lda", .int⟩],
    results := [⟨"ra", (.slice .float32)⟩] }

/-- Line 260 of `blas.go`:
`SSPR(uplo int, n int, alpha float32, x []float32, incX int, ap []float32) (ra []float32)`. -/
def SSPR : Method :=
  { level := 2, sect := "SINGLE", name := "SSPR",
    doc := "SSPR symmetric packed rank 1 operation A := alpha*x*x' + A",
    params := [⟨"uplo", .int⟩, ⟨"n", .int⟩, ⟨"alpha", .float32⟩, ⟨"x", (.slice .float32)⟩,
               ⟨"incX", .int⟩, ⟨"ap", (.slice .float32)⟩],
    results := [⟨"ra", (.slice .float32)⟩] }

/-- Line 263 of `blas.go`:
`SSYR2(uplo int, n int, alpha float32, x []float32, incX int, y []float32, incY int, a []float32, lda int) (ra []float32)`. -/
def SSYR2 : Method :=
  { level := 2, sect := "SINGLE", name := "SSYR2",
    doc := "SSYR2 performs the symmetric rank 2 operation, A := alpha*x*y' + alpha*y*x' + A",
    params := [⟨"uplo", .int⟩, ⟨"n", .int⟩, ⟨"alpha", .float32⟩, ⟨"x", (.slice .float32)⟩,
               ⟨"incX", .int⟩, ⟨"y", (.slice .float32)⟩, ⟨"incY", .int⟩, ⟨"a", (.slice .float32)⟩,
               ⟨"lda", .int⟩],
    results := [⟨"ra", (.slice .float32)⟩] }

/-- Line 266 of `blas.go`:
`SSPR2(uplo int, n int, alpha float32, x []float32, incX int, y []float32, incY int, a []float32) (ra []float32)`. -/
def SSPR2 : Method :=
  { level := 2, sect := "SINGLE", name := "SSPR2",
    doc := "SSPR2 performs the symmetric packed rank 2 operation, A := alpha*x*y' + alpha*y*x' + A",
    params := [⟨"uplo", .int⟩, ⟨"n", .int⟩, ⟨"alpha", .float32⟩, ⟨"x", (.slice .float32)⟩,
               ⟨"incX", .int⟩, ⟨"y", (.slice .float32)⟩, ⟨"incY", .int⟩, ⟨"a", (.slice .float32)⟩],
    results := [⟨"ra", (.slice .float32)⟩] }

/-- Line 273 of `blas.go`:
`DGEMV(trans int, m, n int, alpha float64, a []float64, lda int, x []float64, incX int, beta float64, y []float64, incY int) (ry []float64)`. -/
def DGEMV : Method :=
  { level := 2, sect := "DOUBLE", name := "DGEMV",
    doc := "DGEMV matrix vector multiply",
    params := [⟨"trans", .int⟩, ⟨"m", .int⟩, ⟨"n", .int⟩, ⟨"alpha", .float64⟩,
               ⟨"a", (.slice .float64)⟩, ⟨"lda", .int⟩, ⟨"x", (.slice .float64)⟩, ⟨"incX", .int⟩,
               ⟨"beta", .float64⟩, ⟨"y", (.slice .float64)⟩, ⟨"incY", .int⟩],
    results := [⟨"ry", (.slice .float64)⟩] }

/-- Line 276 of `blas.go`:
`DGBMV(trans int, m, n, kL, kU int, alpha float64, a []float64, lda int, x []float64, incX int, beta float64, y []float64, incY int) (ry []float64)`. -/
def DGBMV : Method :=
  { level := 2, sect := "DOUBLE", name := "DGBMV",
    doc := "DGBMV banded matrix vector multiply",
    params := [⟨"trans", .int⟩, ⟨"m", .int⟩, ⟨"n", .int⟩, ⟨"kL", .int⟩, ⟨"kU", .int⟩,
               ⟨"alpha", .float64⟩, ⟨"a", (.slice .float64)⟩, ⟨"lda", .int⟩,
               ⟨"x", (.slice .float64)⟩, ⟨"incX", .int⟩, ⟨"beta", .float64⟩,
               ⟨"y", (.slice .float64)⟩, ⟨"incY", .int⟩],
    results := [⟨"ry", (.slice .float64)⟩] }

/-- Line 279 of `blas.go`:
`DSYMV(uplo int, n int, alpha float64, a []float64, lda int, x []float64, incX int, beta float64, y []float64, incY int) (ry []float64)`. -/
def DSYMV : Method :=
  { level := 2, sect := "DOUBLE", name := "DSYMV",
    doc := "DSYMV symmetric matrix vector multiply",
    params := [⟨"uplo", .int⟩, ⟨"n", .int⟩, ⟨"alpha", .float64⟩, ⟨"a", (.slice .float64)⟩,
               ⟨"lda", .int⟩, ⟨"x", (.slice .float64)⟩, ⟨"incX", .int⟩, ⟨"beta", .float64⟩,
               ⟨"y", (.slice .float64)⟩, ⟨"incY", .int⟩],
    results := [⟨"ry", (.slice .float64)⟩] }

/-- Line 282 of `blas.go`:
`DSBMV(uplo int, n, k int, alpha float64, a []float64, lda int, x []float64, incX int, beta float64, y []float64, incY int) (ry []float64)`. -/
def DSBMV : Method :=
  { level := 2, sect := "DOUBLE", name := "DSBMV",
    doc := "DSBMV symmetric banded matrix vector multiply",
    params := [⟨"uplo", .int⟩, ⟨"n", .int⟩, ⟨"k", .int⟩, ⟨"alpha", .float64⟩,
               ⟨"a", (.slice .float64)⟩, ⟨"lda", .int⟩, ⟨"x", (.slice .float64)⟩, ⟨"incX", .int⟩,
               ⟨"beta", .float64⟩, ⟨"y", (.slice .float64)⟩, ⟨"incY", .int⟩],
    results := [⟨"ry", (.slice .float64)⟩] }

/-- Line 285 of `blas.go`:
`DSPMV(uplo int, n int, alpha float64, ap []float64, x []float64, incX int, beta float64, y []float64, incY int) (ry []float64)`. -/
def DSPMV : Method :=
  { level := 2, sect := "DOUBLE", name := "DSPMV",
    doc := "DSPMV symmetric packed matrix vector multiply",
    params := [⟨"uplo", .int⟩, ⟨"n", .int⟩, ⟨"alpha", .float64⟩, ⟨"ap", (.slice .float64)⟩,
               ⟨"x", (.slice .float64)⟩, ⟨"incX", .int⟩, ⟨"beta", .float64⟩,
               ⟨"y", (.slice .float64)⟩, ⟨"incY", .int⟩],
    results := [⟨"ry", (.slice .float64)⟩] }

/-- Line 288 of `blas.go`:
`DTRMV(uplo int, trans int, diag int, n int, a []float64, lda int, x []float64, incX int) (rx []float64)`. -/
def DTRMV : Method :=
  { level := 2, sect := "DOUBLE", name := "DTRMV",
    doc := "DTRMV triangular matrix vector multiply",
    params := [⟨"uplo", .int⟩, ⟨"trans", .int⟩, ⟨"diag", .int⟩, ⟨"n", .int⟩,
               ⟨"a", (.slice .float64)⟩, ⟨"lda", .int⟩, ⟨"x", (.slice .float64)⟩, ⟨"incX", .int⟩],
    results := [⟨"rx", (.slice .float64)⟩] }

/-- Line 291 of `blas.go`:
`DTBMV(uplo int, trans int, diag int, n, k int, a []float64, lda int, x []float64, incX int) (rx []float64)`. -/
def DTBMV : Method :=
  { level := 2, sect := "DOUBLE", name := "DTBMV",
    doc := "DTBMV triangular banded matrix vector multiply",
    params := [⟨"uplo", .int⟩, ⟨"trans", .int⟩, ⟨"diag", .int⟩, ⟨"n", .int⟩, ⟨"k", .int⟩,
               ⟨"a", (.slice .float64)⟩, ⟨"lda", .int⟩, ⟨"x", (.slice .float64)⟩, ⟨"incX", .int⟩],
    results := [⟨"rx", (.slice .float64)⟩] }

/-- Line 294 of `blas.go`:
`DTPMV(uplo int, trans int, diag int, n int, ap []float64, x []float64, incX int) (rx []float64)`. -/
def DTPMV : Method :=
  { level := 2, sect := "DOUBLE", name := "DTPMV",
    doc := "DTPMV triangular packed matrix vector multiply",
    params := [⟨"uplo", .int⟩, ⟨"trans", .int⟩, ⟨"diag", .int⟩, ⟨"n", .int⟩,
               ⟨"ap", (.slice .float64)⟩, ⟨"x", (.slice .float64)⟩, ⟨"incX", .int⟩],
    results := [⟨"rx", (.slice .float64)⟩] }

/-- Line 297 of `blas.go`:
`DTRSV(uplo int, trans int, diag int, n int, a []float64, lda int, x []float64, incX int) (rx []float64)`. -/
def DTRSV : Method :=
  { level := 2, sect := "DOUBLE", name := "DTRSV",
    doc := "DTRSV solving triangular matrix problems",
    params := [⟨"uplo", .int⟩, ⟨"trans", .int⟩, ⟨"diag", .int⟩, ⟨"n", .int⟩,
               ⟨"a", (.slice .float64)⟩, ⟨"lda", .int⟩, ⟨"x", (.slice .float64)⟩, ⟨"incX", .int⟩],
    results := [⟨"rx", (.slice .float64)⟩] }

/-- Line 300 of `blas.go`:
`DTBSV(uplo int, trans int, diag int, n, k int, a []float64, lda int, x []float64, incX int) (rx []float64)`. -/
def DTBSV : Method :=
  { level := 2, sect := "DOUBLE", name := "DTBSV",
    doc := "DTBSV solving triangular banded matrix problems",
    params := [⟨"uplo", .int⟩, ⟨"trans", .int⟩, ⟨"diag", .int⟩, ⟨"n", .int⟩, ⟨"k", .int⟩,
               ⟨"a", (.slice .float64)⟩, ⟨"lda", .int⟩, ⟨"x", (.slice .float64)⟩, ⟨"incX", .int⟩],
    results := [⟨"rx", (.slice .float64)⟩] }

/-- Line 303 of `blas.go`:
`DTPSV(uplo int, trans int, diag int, n int, ap []float64, x []float64, incX int) (rx []float64)`. -/
def DTPSV : Method :=
  { level := 2, sect := "DOUBLE", name := "DTPSV",
    doc := "DTPSV solving triangular packed matrix problems",
    params := [⟨"uplo", .int⟩, ⟨"trans", .int⟩, ⟨"diag", .int⟩, ⟨"n", .int⟩,
               ⟨"ap", (.slice .float64)⟩, ⟨"x", (.slice .float64)⟩, ⟨"incX", .int⟩],
    results := [⟨"rx", (.slice .float64)⟩] }

/-- Line 306 of `blas.go`:
`DGER(m, n int, alpha float64, x []float64, incX int, y []float64, incY int, a []float64, lda int) (ra []float64)`. -/
def DGER : Method :=
  { level := 2, sect := "DOUBLE", name := "DGER",
    doc := "DGER performs the rank 1 operation A := alpha*x*y' + A",
    params := [⟨"m", .int⟩, ⟨"n", .int⟩, ⟨"alpha", .float64⟩, ⟨"x", (.slice .float64)⟩,
               ⟨"incX", .int⟩, ⟨"y", (.slice .float64)⟩, ⟨"incY", .int⟩, ⟨"a", (.slice .float64)⟩,
               ⟨"lda", .int⟩],
    results := [⟨"ra", (.slice .float64)⟩] }

/-- Line 309 of `blas.go`:
`DSYR(uplo int, n int, alpha float64, x []float64, incX int, a []float64, lda int) (ra []float64)`. -/
def DSYR : Method :=
  { level := 2, sect := "DOUBLE", name := "DSYR",
    doc := "DSYR performs the symmetric rank 1 operation A := alpha*x*x' + A",
    params := [⟨"uplo", .int⟩, ⟨"n", .int⟩, ⟨"alpha", .float64⟩, ⟨"x", (.slice .float64)⟩,
               ⟨"incX", .int⟩, ⟨"a", (.slice .float64)⟩, ⟨"lda", .int⟩],
    results := [⟨"ra", (.slice .float64)⟩] }

/-- Line 312 of `blas.go`:
`DSPR(uplo int, n int, alpha float64, x []float64, incX int, ap []float64) (ra []float64)`. -/
def DSPR : Method :=
  { level := 2, sect := "DOUBLE", name := "DSPR",
    doc := "DSPR symmetric packed rank 1 operation A := alpha*x*x' + A",
    params := [⟨"uplo", .int⟩, ⟨"n", .int⟩, ⟨"alpha", .float64⟩, ⟨"x", (.slice .float64)⟩,
               ⟨"incX", .int⟩, ⟨"ap", (.slice .float64)⟩],
    results := [⟨"ra", (.slice .float64)⟩] }

/-- Line 315 of `blas.go`:
`DSYR2(uplo int, n int, alpha float64, x []float64, incX int, y []float64, incY int, a []float64, lda int) (ra []float64)`. -/
def DSYR2 : Method :=
  { level := 2, sect := "DOUBLE", name := "DSYR2",
    doc := "DSYR2 performs the symmetric rank 2 operation, A := alpha*x*y' + alpha*y*x' + A",
    params := [⟨"uplo", .int⟩, ⟨"n", .int⟩, ⟨"alpha", .float64⟩, ⟨"x", (.slice .float64)⟩,
               ⟨"incX", .int⟩, ⟨"y", (.slice .float64)⟩, ⟨"incY", .int⟩, ⟨"a", (.slice .float64)⟩,
               ⟨"lda", .int⟩],
    results := [⟨"ra", (.slice .float64)⟩] }

/-- Line 318 of `blas.go`:
`DSPR2(uplo int, n int, alpha float64, x []float64, incX int, y []float64, incY int, a []float64) (ra []float64)`. -/
def DSPR2 : Method :=
  { level := 2, sect := "DOUBLE", name := "DSPR2",
    doc := "DSPR2 performs the symmetric packed rank 2 operation, A := alpha*x*y' + alpha*y*x' + A",
    params := [⟨"uplo", .int⟩, ⟨"n", .int⟩, ⟨"alpha", .float64⟩, ⟨"x", (.slice .float64)⟩,
               ⟨"incX", .int⟩, ⟨"y", (.slice .float64)⟩, ⟨"incY", .int⟩, ⟨"a", (.slice .float64)⟩],
    results := [⟨"ra", (.slice .float64)⟩] }

/-- Line 325 of `blas.go`:
`CGEMV(trans int, m, n int, alpha complex64, a []complex64, lda int, x []complex64, incX int, beta complex64, y []complex64, incY int) (ry []complex64)`. -/
def CGEMV : Method :=
  { level := 2, sect := "COMPLEX", name := "CGEMV",
    doc := "CGEMV matrix vector multiply",
    params := [⟨"trans", .int⟩, ⟨"m", .int⟩, ⟨"n", .int⟩, ⟨"alpha", .complex64⟩,
               ⟨"a", (.slice .complex64)⟩, ⟨"lda", .int⟩, ⟨"x", (.slice .complex64)⟩,
               ⟨"incX", .int⟩, ⟨"beta", .complex64⟩, ⟨"y", (.slice .complex64)⟩, ⟨"incY", .int⟩],
    results := [⟨"ry", (.slice .complex64)⟩] }

/-- Line 328 of `blas.go`:
`CGBMV(trans int, m, n, kL, kU int, alpha complex64, a []complex64, lda int, x []complex64, incX int, beta complex64, y []complex64, incY int) (ry []complex64)`. -/
def CGBMV : Method :=
  { level := 2, sect := "COMPLEX", name := "CGBMV",
    doc := "CGBMV banded matrix vector multiply",
    params := [⟨"trans", .int⟩, ⟨"m", .int⟩, ⟨"n", .int⟩, ⟨"kL", .int⟩, ⟨"kU", .int⟩,
               ⟨"alpha", .complex64⟩, ⟨"a", (.slice .complex64)⟩, ⟨"lda", .int⟩,
               ⟨"x", (.slice .complex64)⟩, ⟨"incX", .int⟩, ⟨"beta", .complex64⟩,
               ⟨"y", (.slice .complex64)⟩, ⟨"incY", .int⟩],
    results := [⟨"ry", (.slice .complex64)⟩] }

/-- Line 331 of `blas.go`:
`CHEMV(uplo int, n int, alpha complex64, a []complex64, lda int, x []complex64, incX int, beta complex64, y []complex64, incY int) (ry []complex64)`. -/
def CHEMV : Method :=
  { level := 2, sect := "COMPLEX", name := "CHEMV",
    doc := "CHEMV hermitian matrix vector multiply",
    params := [⟨"uplo", .int⟩, ⟨"n", .int⟩, ⟨"alpha", .complex64⟩, ⟨"a", (.slice .complex64)⟩,
               ⟨"lda", .int⟩, ⟨"x", (.slice .complex64)⟩, ⟨"incX", .int⟩, ⟨"beta", .complex64⟩,
               ⟨"y", (.slice .complex64)⟩, ⟨"incY", .int⟩],
    results := [⟨"ry", (.slice .complex64)⟩] }

/-- Line 334 of `blas.go`:
`CHBMV(uplo int, n, k int, alpha complex64, a []complex64, lda int, x []complex64, incX int, beta complex64, y []complex64, incY int) (ry []complex64)`. -/
def CHBMV : Method :=
  { level := 2, sect := "COMPLEX", name := "CHBMV",
    doc := "CHBMV hermitian banded matrix vector multiply",
    params := [⟨"uplo", .int⟩, ⟨"n", .int⟩, ⟨"k", .int⟩, ⟨"alpha", .complex64⟩,
               ⟨"a", (.slice .complex64)⟩, ⟨"lda", .int⟩, ⟨"x", (.slice .complex64)⟩,
               ⟨"incX", .int⟩, ⟨"beta", .complex64⟩, ⟨"y", (.slice .complex64)⟩, ⟨"incY", .int⟩],
    results := [⟨"ry", (.slice .complex64)⟩] }

/-- Line 337 of `blas.go`:
`CHPMV(uplo int, n int, alpha complex64, ap []complex64, x []complex64, incX int, beta complex64, y []complex64, incY int) (ry []complex64)`. -/
def CHPMV : Method :=
  { level := 2, sect := "COMPLEX", name := "CHPMV",
    doc := "CHPMV hermitian packed matrix vector multiply",
    params := [⟨"uplo", .int⟩, ⟨"n", .int⟩, ⟨"alpha", .complex64⟩, ⟨"ap", (.slice .complex64)⟩,
               ⟨"x", (.slice .complex64)⟩, ⟨"incX", .int⟩, ⟨"beta", .complex64⟩,
               ⟨"y", (.slice .complex64)⟩, ⟨"incY", .int⟩],
    results := [⟨"ry", (.slice .complex64)⟩] }

/-- Line 340 of `blas.go`:
`CTRMV(uplo int, trans int, d int, n int, a []complex64, lda int, x []complex64, incX int) (rx []complex64)`. -/
def CTRMV : Method :=
  { level := 2, sect := "COMPLEX", name := "CTRMV",
    doc := "CTRMV triangular matrix vector multiply",
    params := [⟨"uplo", .int⟩, ⟨"trans", .int⟩, ⟨"d", .int⟩, ⟨"n", .int⟩,
               ⟨"a", (.slice .complex64)⟩, ⟨"lda", .int⟩, ⟨"x", (.slice .complex64)⟩,
               ⟨"incX", .int⟩],
    results := [⟨"rx", (.slice .complex64)⟩] }

/-- Line 343 of `blas.go`:
`CTBMV(uplo int, trans int, diag int, n, k int, a []complex64, lda int, x []complex64, incX int) (rx []complex64)`. -/
def CTBMV : Method :=
  { level := 2, sect := "COMPLEX", name := "CTBMV",
    doc := "CTBMV triangular banded matrix vector multiply",
    params := [⟨"uplo", .int⟩, ⟨"trans", .int⟩, ⟨"diag", .int⟩, ⟨"n", .int⟩, ⟨"k", .int⟩,
               ⟨"a", (.slice .complex64)⟩, ⟨"lda", .int⟩, ⟨"x", (.slice .complex64)⟩,
               ⟨"incX", .int⟩],
    results := [⟨"rx", (.slice .complex64)⟩] }

/-- Line 346 of `blas.go`:
`CTPMV(uplo int, trans int, diag int, n int, ap []complex64, x []complex64, incX int) (rx []complex64)`. -/
def CTPMV : Method :=
  { level := 2, sect := "COMPLEX", name := "CTPMV",
    doc := "CTPMV triangular packed matrix vector multiply",
    params := [⟨"uplo", .int⟩, ⟨"trans", .int⟩, ⟨"diag", .int⟩, ⟨"n", .int⟩,
               ⟨"ap", (.slice .complex64)⟩, ⟨"x", (.slice .complex64)⟩, ⟨"incX", .int⟩],
    results := [⟨"rx", (.slice .complex64)⟩] }

/-- Line 349 of `blas.go`:
`CTRSV(uplo int, trans int, diag int, n int, a []complex64, lda int, x []complex64, incX int) (rx []complex64)`. -/
def CTRSV : Method :=
  { level := 2, sect := "COMPLEX", name := "CTRSV",
    doc := "CTRSV solving triangular matrix problems",
    params := [⟨"uplo", .int⟩, ⟨"trans", .int⟩, ⟨"diag", .int⟩, ⟨"n", .int⟩,
               ⟨"a", (.slice .complex64)⟩, ⟨"lda", .int⟩, ⟨"x", (.slice .complex64)⟩,
               ⟨"incX", .int⟩],
    results := [⟨"rx", (.slice .complex64)⟩] }

/-- Line 352 of `blas.go`:
`CTBSV(uplo int, trans int, diag int, n, k int, a []complex64, lda int, x []complex64, incX int) (rx []complex64)`. -/
def CTBSV : Method :=
  { level := 2, sect := "COMPLEX", name := "CTBSV",
    doc := "CTBSV solving triangular banded matrix problems",
    params := [⟨"uplo", .int⟩, ⟨"trans", .int⟩, ⟨"diag", .int⟩, ⟨"n", .int⟩, ⟨"k", .int⟩,
               ⟨"a", (.slice .complex64)⟩, ⟨"lda", .int⟩, ⟨"x", (.slice .complex64)⟩,
               ⟨"incX", .int⟩],
    results := [⟨"rx", (.slice .complex64)⟩] }

/-- Line 355 of `blas.go`:
`CTPSV(uplo int, trans int, diag int, n int, ap []complex64, x []complex64, incX int) (rx []complex64)`. -/
def CTPSV : Method :=
  { level := 2, sect := "COMPLEX", name := "CTPSV",
    doc := "CTPSV solving triangular packed matrix problems",
    params := [⟨"uplo", .int⟩, ⟨"trans", .int⟩, ⟨"diag", .int⟩, ⟨"n", .int⟩,
               ⟨"ap", (.slice .complex64)⟩, ⟨"x", (.slice .complex64)⟩, ⟨"incX", .int⟩],
    results := [⟨"rx", (.slice .complex64)⟩] }

/-- Line 358 of `blas.go`:
`CGERU(m, n int, alpha complex64, x []complex64, incX int, y []complex64, incY int, a []complex64, lda int) (ra []complex64)`. -/
def CGERU : Method :=
  { level := 2, sect := "COMPLEX", name := "CGERU",
    doc := "CGERU performs the rank 1 operation A := alpha*x*y' + A",
    params := [⟨"m", .int⟩, ⟨"n", .int⟩, ⟨"alpha", .complex64⟩, ⟨"x", (.slice .complex64)⟩,
               ⟨"incX", .int⟩, ⟨"y", (.slice .complex64)⟩, ⟨"incY", .int⟩,
               ⟨"a", (.slice .complex64)⟩, ⟨"lda", .int⟩],
    results := [⟨"ra", (.slice .complex64)⟩] }

/-- Line 361 of `blas.go`:
`CGERC(m, n int, alpha complex64, x []complex64, incX int, y []complex64, incY int, a []complex64, lda int) (ra []complex64)`. -/
def CGERC : Method :=
  { level := 2, sect := "COMPLEX", name := "CGERC",
    doc := "CGERC performs the rank 1 operation A := alpha*x*conjg( y' ) + A",
    params := [⟨"m", .int⟩, ⟨"n", .int⟩, ⟨"alpha", .complex64⟩, ⟨"x", (.slice .complex64)⟩,
               ⟨"incX", .int⟩, ⟨"y", (.slice .complex64)⟩, ⟨"incY", .int⟩,
               ⟨"a", (.slice .complex64)⟩, ⟨"lda", .int⟩],
    results := [⟨"ra", (.slice .complex64)⟩] }

/-- Line 364 of `blas.go`:
`CHER(uplo int, n int, alpha float32, x []complex64, incX int, a []complex64, lda int) (ra []complex64)`. -/
def CHER : Method :=
  { level := 2, sect := "COMPLEX", name := "CHER",
    doc := "CHER hermitian rank 1 operation A := alpha*x*conjg(x') + A",
    params := [⟨"uplo", .int⟩, ⟨"n", .int⟩, ⟨"alpha", .float32⟩, ⟨"x", (.slice .complex64)⟩,
               ⟨"incX", .int⟩, ⟨"a", (.slice .complex64)⟩, ⟨"lda", .int⟩],
    results := [⟨"ra", (.slice .complex64)⟩] }

/-- Line 367 of `blas.go`:
`CHPR(uplo int, n int, alpha float32, x []complex64, incX int, a []complex64) (ra []complex64)`. -/
def CHPR : Method :=
  { level := 2, sect := "COMPLEX", name := "CHPR",
    doc := "CHPR hermitian packed rank 1 operation A := alpha*x*conjg( x' ) + A",
    params := [⟨"uplo", .int⟩, ⟨"n", .int⟩, ⟨"alpha", .float32⟩, ⟨"x", (.slice .complex64)⟩,
               ⟨"incX", .int⟩, ⟨"a", (.slice .complex64)⟩],
    results := [⟨"ra", (.slice .complex64)⟩] }

/-- Line 370 of `blas.go`:
`CHER2(uplo int, n int, alpha complex64, x []complex64, incX int, y []complex64, incY int, a []complex64, lda int) (ra []complex64)`. -/
def CHER2 : Method :=
  { level := 2, sect := "COMPLEX", name := "CHER2",
    doc := "CHER2 hermitian rank 2 operation",
    params := [⟨"uplo", .int⟩, ⟨"n", .int⟩, ⟨"alpha", .complex64⟩, ⟨"x", (.slice .complex64)⟩,
               ⟨"incX", .int⟩, ⟨"y", (.slice .complex64)⟩, ⟨"incY", .int⟩,
               ⟨"a", (.slice .complex64)⟩, ⟨"lda", .int⟩],
    results := [⟨"ra", (.slice .complex64)⟩] }

/-- Line 373 of `blas.go`:
`CHPR2(uplo int, n int, alpha complex64, x []complex64, incX int, y []complex64, incY int, ap []complex64) (ra []complex64)`. -/
def CHPR2 : Method :=
  { level := 2, sect := "COMPLEX", name := "CHPR2",
    doc := "CHPR2 hermitian packed rank 2 operation",
    params := [⟨"uplo", .int⟩, ⟨"n", .int⟩, ⟨"alpha", .complex64⟩, ⟨"x", (.slice .complex64)⟩,
               ⟨"incX", .int⟩, ⟨"y", (.slice .complex64)⟩, ⟨"incY", .int⟩,
               ⟨"ap", (.slice .complex64)⟩],
    results := [⟨"ra", (.slice .complex64)⟩] }

/-- Line 380 of `blas.go`:
`ZGEMV(trans int, m, n int, alpha complex128, a []complex128, lda int, x []complex128, incX int, beta complex128, y []complex128, incY int) (ry []complex128)`. -/
def ZGEMV : Method :=
  { level := 2, sect := "DOUBLE COMPLEX", name := "ZGEMV",
    doc := "ZGEMV matrix vector multiply",
    params := [⟨"trans", .int⟩, ⟨"m", .int⟩, ⟨"n", .int⟩, ⟨"alpha", .complex128⟩,
               ⟨"a", (.slice .complex128)⟩, ⟨"lda", .int⟩, ⟨"x", (.slice .complex128)⟩,
               ⟨"incX", .int⟩, ⟨"beta", .complex128⟩, ⟨"y", (.slice .complex128)⟩, ⟨"incY", .int⟩],
    results := [⟨"ry", (.slice .complex128)⟩] }

/-- Line 383 of `blas.go`:
`ZGBMV(trans int, m, n int, kL int, kU int, alpha complex128, a []complex128, lda int, x []complex128, incX int, beta complex128, y []complex128, incY int) (ry []complex128)`. -/
def ZGBMV : Method :=
  { level := 2, sect := "DOUBLE COMPLEX", name := "ZGBMV",
    doc := "ZGBMV banded matrix vector multiply",
    params := [⟨"trans", .int⟩, ⟨"m", .int⟩, ⟨"n", .int⟩, ⟨"kL", .int⟩, ⟨"kU", .int⟩,
               ⟨"alpha", .complex128⟩, ⟨"a", (.slice .complex128)⟩, ⟨"lda", .int⟩,
               ⟨"x", (.slice .complex128)⟩, ⟨"incX", .int⟩, ⟨"beta", .complex128⟩,
               ⟨"y", (.slice .complex128)⟩, ⟨"incY", .int⟩],
    results := [⟨"ry", (.slice .complex128)⟩] }

/-- Line 386 of `blas.go`:
`ZHEMV(uplo int, n int, alpha complex128, a []complex128, lda int, x []complex128, incX int, beta complex128, y []complex128, incY int) (ry []complex128)`. -/
def ZHEMV : Method :=
  { level := 2, sect := "DOUBLE COMPLEX", name := "ZHEMV",
    doc := "ZHEMV hermitian matrix vector multiply",
    params := [⟨"uplo", .int⟩, ⟨"n", .int⟩, ⟨"alpha", .complex128⟩, ⟨"a", (.slice .complex128)⟩,
               ⟨"lda", .int⟩, ⟨"x", (.slice .complex128)⟩, ⟨"incX", .int⟩, ⟨"beta", .complex128⟩,
               ⟨"y", (.slice .complex128)⟩, ⟨"incY", .int⟩],
    results := [⟨"ry", (.slice .complex128)⟩] }

/-- Line 389 of `blas.go`:
`ZHBMV(uplo int, n, k int, alpha complex128, a []complex128, lda int, x []complex128, incX int, beta complex128, y []complex128, incY int) (ry []complex128)`. -/
def ZHBMV : Method :=
  { level := 2, sect := "DOUBLE COMPLEX", name := "ZHBMV",
    doc := "ZHBMV hermitian banded matrix vector multiply",
    params := [⟨"uplo", .int⟩, ⟨"n", .int⟩, ⟨"k", .int⟩, ⟨"alpha", .complex128⟩,
               ⟨"a", (.slice .complex128)⟩, ⟨"lda", .int⟩, ⟨"x", (.slice .complex128)⟩,
               ⟨"incX", .int⟩, ⟨"beta", .complex128⟩, ⟨"y", (.slice .complex128)⟩, ⟨"incY", .int⟩],
    results := [⟨"ry", (.slice .complex128)⟩] }

/-- Line 392 of `blas.go`:
`ZHPMV(uplo int, n int, alpha complex128, ap []complex128, x []complex128, incX int, beta complex128, y []complex128, incY int) (ry []complex128)`. -/
def ZHPMV : Method :=
  { level := 2, sect := "DOUBLE COMPLEX", name := "ZHPMV",
    doc := "ZHPMV hermitian packed matrix vector multiply",
    params := [⟨"uplo", .int⟩, ⟨"n", .int⟩, ⟨"alpha", .complex128⟩, ⟨"ap", (.slice .complex128)⟩,
               ⟨"x", (.slice .complex128)⟩, ⟨"incX", .int⟩, ⟨"beta", .complex128⟩,
               ⟨"y", (.slice .complex128)⟩, ⟨"incY", .int⟩],
    results := [⟨"ry", (.slice .complex128)⟩] }

/-- Line 395 of `blas.go`:
`ZTRMV(uplo int, trans int, d int, n int, a []complex128, lda int, x []complex128, incX int) (rx []complex128)`. -/
def ZTRMV : Method :=
  { level := 2, sect := "DOUBLE COMPLEX", name := "ZTRMV",
    doc := "ZTRMV triangular matrix vector multiply",
    params := [⟨"uplo", .int⟩, ⟨"trans", .int⟩, ⟨"d", .int⟩, ⟨"n", .int⟩,
               ⟨"a", (.slice .complex128)⟩, ⟨"lda", .int⟩, ⟨"x", (.slice .complex128)⟩,
               ⟨"incX", .int⟩],
    results := [⟨"rx", (.slice .complex128)⟩] }

/-- Line 398 of `blas.go`:
`ZTBMV(uplo int, trans int, d int, n, k int, a []complex128, lda int, x []complex128, incX int) (rx []complex128)`. -/
def ZTBMV : Method :=
  { level := 2, sect := "DOUBLE COMPLEX", name := "ZTBMV",
    doc := "ZTBMV triangular banded matrix vector multiply",
    params := [⟨"uplo", .int⟩, ⟨"trans", .int⟩, ⟨"d", .int⟩, ⟨"n", .int⟩, ⟨"k", .int⟩,
               ⟨"a", (.slice .complex128)⟩, ⟨"lda", .int⟩, ⟨"x", (.slice .complex128)⟩,
               ⟨"incX", .int⟩],
    results := [⟨"rx", (.slice .complex128)⟩] }

/-- Line 401 of `blas.go`:
`ZTPMV(uplo int, trans int, d int, n int, ap []complex128, x []complex128, incX int) (rx []complex128)`. -/
def ZTPMV : Method :=
  { level := 2, sect := "DOUBLE COMPLEX", name := "ZTPMV",
    doc := "ZTPMV triangular packed matrix vector multiply",
    params := [⟨"uplo", .int⟩, ⟨"trans", .int⟩, ⟨"d", .int⟩, ⟨"n", .int⟩,
               ⟨"ap", (.slice .complex128)⟩, ⟨"x", (.slice .complex128)⟩, ⟨"incX", .int⟩],
    results := [⟨"rx", (.slice .complex128)⟩] }

/-- Line 404 of `blas.go`:
`ZTRSV(uplo int, trans int, d int, n int, a []complex128, lda int, x []complex128, incX int) (rx []complex128)`. -/
def ZTRSV : Method :=
  { level := 2, sect := "DOUBLE COMPLEX", name := "ZTRSV",
    doc := "ZTRSV solving triangular matrix problems",
    params := [⟨"uplo", .int⟩, ⟨"trans", .int⟩, ⟨"d", .int⟩, ⟨"n", .int⟩,
               ⟨"a", (.slice .complex128)⟩, ⟨"lda", .int⟩, ⟨"x", (.slice .complex128)⟩,
               ⟨"incX", .int⟩],
    results := [⟨"rx", (.slice .complex128)⟩] }

/-- Line 407 of `blas.go`:
`ZTBSV(uplo int, trans int, d int, n, k int, a []complex128, lda int, x []complex128, incX int) (rx []complex128)`. -/
def ZTBSV : Method :=
  { level := 2, sect := "DOUBLE COMPLEX", name := "ZTBSV",
    doc := "ZTBSV solving triangular banded matrix problems",
    params := [⟨"uplo", .int⟩, ⟨"trans", .int⟩, ⟨"d", .int⟩, ⟨"n", .int⟩, ⟨"k", .int⟩,
               ⟨"a", (.slice .complex128)⟩, ⟨"lda", .int⟩, ⟨"x", (.slice .complex128)⟩,
               ⟨"incX", .int⟩],
    results := [⟨"rx", (.slice .complex128)⟩] }

/-- Line 410 of `blas.go`:
`ZTPSV(uplo int, trans int, d int, n int, ap []complex128, x []complex128, incX int) (rx []complex128)`. -/
def ZTPSV : Method :=
  { level := 2, sect := "DOUBLE COMPLEX", name := "ZTPSV",
    doc := "ZTPSV solving triangular packed matrix problems",
    params := [⟨"uplo", .int⟩, ⟨"trans", .int⟩, ⟨"d", .int⟩, ⟨"n", .int⟩,
               ⟨"ap", (.slice .complex128)⟩, ⟨"x", (.slice .complex128)⟩, ⟨"incX", .int⟩],
    results := [⟨"rx", (.slice .complex128)⟩] }

/-- Line 413 of `blas.go`:
`ZGERU(m, n int, alpha complex128, x []complex128, incX int, y []complex128, incY int, a []complex128, lda int) (ra []complex128)`. -/
def ZGERU : Method :=
  { level := 2, sect := "DOUBLE COMPLEX", name := "ZGERU",
    doc := "ZGERU performs the rank 1 operation A := alpha*x*y' + A",
    params := [⟨"m", .int⟩, ⟨"n", .int⟩, ⟨"alpha", .complex128⟩, ⟨"x", (.slice .complex128)⟩,
               ⟨"incX", .int⟩, ⟨"y", (.slice .complex128)⟩, ⟨"incY", .int⟩,
               ⟨"a", (.slice .complex128)⟩, ⟨"lda", .int⟩],
    results := [⟨"ra", (.slice .complex128)⟩] }

/-- Line 416 of `blas.go`:
`ZGERC(m, n int, alpha complex128, x []complex128, incX int, y []complex128, incY int, a []complex128, lda int) (ra []complex128)`. -/
def ZGERC : Method :=
  { level := 2, sect := "DOUBLE COMPLEX", name := "ZGERC",
    doc := "ZGERC performs the rank 1 operation A := alpha*x*conjg( y' ) + A",
    params := [⟨"m", .int⟩, ⟨"n", .int⟩, ⟨"alpha", .complex128⟩, ⟨"x", (.slice .complex128)⟩,
               ⟨"incX", .int⟩, ⟨"y", (.slice .complex128)⟩, ⟨"incY", .int⟩,
               ⟨"a", (.slice .complex128)⟩, ⟨"lda", .int⟩],
    results := [⟨"ra", (.slice .complex128)⟩] }

/-- Line 419 of `blas.go`:
`ZHER(uplo int, n int, alpha float64, x []complex128, incX int, a []complex128, lda int) (ra []complex128)`. -/
def ZHER : Method :=
  { level := 2, sect := "DOUBLE COMPLEX", name := "ZHER",
    doc := "ZHER hermitian rank 1 operation A := alpha*x*conjg(x') + A",
    params := [⟨"uplo", .int⟩, ⟨"n", .int⟩, ⟨"alpha", .float64⟩, ⟨"x", (.slice .complex128)⟩,
               ⟨"incX", .int⟩, ⟨"a", (.slice .complex128)⟩, ⟨"lda", .int⟩],
    results := [⟨"ra", (.slice .complex128)⟩] }

/-- Line 422 of `blas.go`:
`ZHPR(uplo int, n int, alpha float64, x []complex128, incX int, a []complex128) (ra []complex128)`. -/
def ZHPR : Method :=
  { level := 2, sect := "DOUBLE COMPLEX", name := "ZHPR",
    doc := "ZHPR hermitian packed rank 1 operation A := alpha*x*conjg( x' ) + A",
    params := [⟨"uplo", .int⟩, ⟨"n", .int⟩, ⟨"alpha", .float64⟩, ⟨"x", (.slice .complex128)⟩,
               ⟨"incX", .int⟩, ⟨"a", (.slice .complex128)⟩],
    results := [⟨"ra", (.slice .complex128)⟩] }

/-- Line 425 of `blas.go`:
`ZHER2(uplo int, n int, alpha complex128, x []complex128, incX int, y []complex128, incY int, a []complex128, lda int) (ra []complex128)`. -/
def ZHER2 : Method :=
  { level := 2, sect := "DOUBLE COMPLEX", name := "ZHER2",
    doc := "ZHER2 hermitian rank 2 operation",
    params := [⟨"uplo", .int⟩, ⟨"n", .int⟩, ⟨"alpha", .complex128⟩, ⟨"x", (.slice .complex128)⟩,
               ⟨"incX", .int⟩, ⟨"y", (.slice .complex128)⟩, ⟨"incY", .int⟩,
               ⟨"a", (.slice .complex128)⟩, ⟨"lda", .int⟩],
    results := [⟨"ra", (.slice .complex128)⟩] }

/-- Line 428 of `blas.go`:
`ZHPR2(uplo int, n int, alpha complex128, x []complex128, incX int, y []complex128, incY int, ap []complex128) (ra []complex128)`. -/
def ZHPR2 : Method :=
  { level := 2, sect := "DOUBLE COMPLEX", name := "ZHPR2",
    doc := "ZHPR2 hermitian packed rank 2 operation",
    params := [⟨"uplo", .int⟩, ⟨"n", .int⟩, ⟨"alpha", .complex128⟩, ⟨"x", (.slice .complex128)⟩,
               ⟨"incX", .int⟩, ⟨"y", (.slice .complex128)⟩, ⟨"incY", .int⟩,
               ⟨"ap", (.slice .complex128)⟩],
    results := [⟨"ra", (.slice .complex128)⟩] }

/-- Line 439 of `blas.go`:
`SGEMM(transA, transB int, m, n, k int, alpha float32, a []float32, lda int, b []float32, ldb int, beta float32, c []float32, ldc int) (rc []float32)`. -/
def SGEMM : Method :=
  { level := 3, sect := "SINGLE", name := "SGEMM",
    doc := "SGEMM matrix matrix multiply",
    params := [⟨"transA", .int⟩, ⟨"transB", .int⟩, ⟨"m", .int⟩, ⟨"n", .int⟩, ⟨"k", .int⟩,
               ⟨"alpha", .float32⟩, ⟨"a", (.slice .float32)⟩, ⟨"lda", .int⟩,
               ⟨"b", (.slice .float32)⟩, ⟨"ldb", .int⟩, ⟨"beta", .float32⟩,
               ⟨"c", (.slice .float32)⟩, ⟨"ldc", .int⟩],
    results := [⟨"rc", (.slice .float32)⟩] }

/-- Line 442 of `blas.go`:
`SSYMM(side int, uplo int, m, n int, alpha float32, a []float32, lda int, b []float32, ldb int, beta float32, c []float32, ldc int) (rc []float32)`. -/
def SSYMM : Method :=
  { level := 3, sect := "SINGLE", name := "SSYMM",
    doc := "SSYMM symmetric matrix matrix multiply",
    params := [⟨"side", .int⟩, ⟨"uplo", .int⟩, ⟨"m", .int⟩, ⟨"n", .int⟩, ⟨"alpha", .float32⟩,
               ⟨"a", (.slice .float32)⟩, ⟨"lda", .int⟩, ⟨"b", (.slice .float32)⟩, ⟨"ldb", .int⟩,
               ⟨"beta", .float32⟩, ⟨"c", (.slice .float32)⟩, ⟨"ldc", .int⟩],
    results := [⟨"rc", (.slice .float32)⟩] }

/-- Line 445 of `blas.go`:
`SSYRK(uplo int, t int, n, k int, alpha float32, a []float32, lda int, beta float32, c []float32, ldc int) (rc []float32)`. -/
def SSYRK : Method :=
  { level := 3, sect := "SINGLE", name := "SSYRK",
    doc := "SSYRK symmetric rank-k update to a matrix",
    params := [⟨"uplo", .int⟩, ⟨"t", .int⟩, ⟨"n", .int⟩, ⟨"k", .int⟩, ⟨"alpha", .float32⟩,
               ⟨"a", (.slice .float32)⟩, ⟨"lda", .int⟩, ⟨"beta", .float32⟩,
               ⟨"c", (.slice .float32)⟩, ⟨"ldc", .int⟩],
    results := [⟨"rc", (.slice .float32)⟩] }

/-- Line 448 of `blas.go`:
`SSYR2K(uplo int, t int, n, k int, alpha float32, a []float32, lda int, b []float32, ldb int, beta float32, c []float32, ldc int) (rc []float32)`. -/
def SSYR2K : Method :=
  { level := 3, sect := "SINGLE", name := "SSYR2K",
    doc := "SSYR2K symmetric rank-2k update to a matrix",
    params := [⟨"uplo", .int⟩, ⟨"t", .int⟩, ⟨"n", .int⟩, ⟨"k", .int⟩, ⟨"alpha", .float32⟩,
               ⟨"a", (.slice .float32)⟩, ⟨"lda", .int⟩, ⟨"b", (.slice .float32)⟩, ⟨"ldb", .int⟩,
               ⟨"beta", .float32⟩, ⟨"c", (.slice .float32)⟩, ⟨"ldc", .int⟩],
    results := [⟨"rc", (.slice .float32)⟩] }

/-- Line 451 of `blas.go`:
`STRMM(side int, uplo int, trans rune, d int, m, n int, alpha float32, a []float32, lda int, b []float32, ldb int) (rb []float32)`. -/
def STRMM : Method :=
  { level := 3, sect := "SINGLE", name := "STRMM",
    doc := "STRMM triangular matrix matrix multiply",
    params := [⟨"side", .int⟩, ⟨"uplo", .int⟩, ⟨"trans", .rune⟩, ⟨"d", .int⟩, ⟨"m", .int⟩,
               ⟨"n", .int⟩, ⟨"alpha", .float32⟩, ⟨"a", (.slice .float32)⟩, ⟨"lda", .int⟩,
               ⟨"b", (.slice .float32)⟩, ⟨"ldb", .int⟩],
    results := [⟨"rb", (.slice .float32)⟩] }

/-- Line 454 of `blas.go`:
`STRSM(side int, uplo int, trans rune, d int, m, n int, alpha float32, a []float32, lda int, b []float32, ldb int) (rb []float32)`. -/
def STRSM : Method :=
  { level := 3, sect := "SINGLE", name := "STRSM",
    doc := "STRSM solving triangular matrix with multiple right hand sides",
    params := [⟨"side", .int⟩, ⟨"uplo", .int⟩, ⟨"trans", .rune⟩, ⟨"d", .int⟩, ⟨"m", .int⟩,
               ⟨"n", .int⟩, ⟨"alpha", .float32⟩, ⟨"a", (.slice .float32)⟩, ⟨"lda", .int⟩,
               ⟨"b", (.slice .float32)⟩, ⟨"ldb", .int⟩],
    results := [⟨"rb", (.slice .float32)⟩] }

/-- Line 461 of `blas.go`:
`DGEMM(trans, tB int, m, n, k int, alpha float64, a []float64, lda int, b []float64, ldb int, beta float64, c []float64, ldc int) (rc []float64)`. -/
def DGEMM : Method :=
  { level := 3, sect := "DOUBLE", name := "DGEMM",
    doc := "DGEMM matrix matrix multiply",
    params := [⟨"trans", .int⟩, ⟨"tB", .int⟩, ⟨"m", .int⟩, ⟨"n", .int⟩, ⟨"k", .int⟩,
               ⟨"alpha", .float64⟩, ⟨"a", (.slice .float64)⟩, ⟨"lda", .int⟩,
               ⟨"b", (.slice .float64)⟩, ⟨"ldb", .int⟩, ⟨"beta", .float64⟩,
               ⟨"c", (.slice .float64)⟩, ⟨"ldc", .int⟩],
    results := [⟨"rc", (.slice .float64)⟩] }

/-- Line 464 of `blas.go`:
`DSYMM(s int, uplo int, m, n int, alpha float64, a []float64, lda int, b []float64, ldb int, beta float64, c []float64, ldc int) (rc []float64)`. -/
def DSYMM : Method :=
  { level := 3, sect := "DOUBLE", name := "DSYMM",
    doc := "DSYMM symmetric matrix matrix multiply",
    params := [⟨"s", .int⟩, ⟨"uplo", .int⟩, ⟨"m", .int⟩, ⟨"n", .int⟩, ⟨"alpha", .float64⟩,
               ⟨"a", (.slice .float64)⟩, ⟨"lda", .int⟩, ⟨"b", (.slice .float64)⟩, ⟨"ldb", .int⟩,
               ⟨"beta", .float64⟩, ⟨"c", (.slice .float64)⟩, ⟨"ldc", .int⟩],
    results := [⟨"rc", (.slice .float64)⟩] }

/-- Line 467 of `blas.go`:
`DSYRK(uplo int, t int, n, k int, alpha float64, a []float64, lda int, beta float64, c []float64, ldc int) (rc []float64)`. -/
def DSYRK : Method :=
  { level := 3, sect := "DOUBLE", name := "DSYRK",
    doc := "DSYRK symmetric rank-k update to a matrix",
    params := [⟨"uplo", .int⟩, ⟨"t", .int⟩, ⟨"n", .int⟩, ⟨"k", .int⟩, ⟨"alpha", .float64⟩,
               ⟨"a", (.slice .float64)⟩, ⟨"lda", .int⟩, ⟨"beta", .float64⟩,
               ⟨"c", (.slice .float64)⟩, ⟨"ldc", .int⟩],
    results := [⟨"rc", (.slice .float64)⟩] }

/-- Line 470 of `blas.go`:
`DSYR2K(uplo int, t int, n, k int, alpha float64, a []float64, lda int, b []float64, ldb int, beta float64, c []float64, ldc int) (rc []float64)`. -/
def DSYR2K : Method :=
  { level := 3, sect := "DOUBLE", name := "DSYR2K",
    doc := "DSYR2K symmetric rank-2k update to a matrix",
    params := [⟨"uplo", .int⟩, ⟨"t", .int⟩, ⟨"n", .int⟩, ⟨"k", .int⟩, ⟨"alpha", .float64⟩,
               ⟨"a", (.slice .float64)⟩, ⟨"lda", .int⟩, ⟨"b", (.slice .float64)⟩, ⟨"ldb", .int⟩,
               ⟨"beta", .float64⟩, ⟨"c", (.slice .float64)⟩, ⟨"ldc", .int⟩],
    results := [⟨"rc", (.slice .float64)⟩] }

/-- Line 473 of `blas.go`:
`DTRMM(s int, uplo int, trans int, d int, m, n int, alpha float64, a []float64, lda int, b []float64, ldb int) (rb []float64)`. -/
def DTRMM : Method :=
  { level := 3, sect := "DOUBLE", name := "DTRMM",
    doc := "DTRMM triangular matrix matrix multiply",
    params := [⟨"s", .int⟩, ⟨"uplo", .int⟩, ⟨"trans", .int⟩, ⟨"d", .int⟩, ⟨"m", .int⟩, ⟨"n", .int⟩,
               ⟨"alpha", .float64⟩, ⟨"a", (.slice .float64)⟩, ⟨"lda", .int⟩,
               ⟨"b", (.slice .float64)⟩, ⟨"ldb", .int⟩],
    results := [⟨"rb", (.slice .float64)⟩] }

/-- Line 476 of `blas.go`:
`DTRSM(s int, uplo int, trans int, d int, m, n int, alpha float64, a []float64, lda int, b []float64, ldb int) (rb []float64)`. -/
def DTRSM : Method :=
  { level := 3, sect := "DOUBLE", name := "DTRSM",
    doc := "DTRSM solving triangular matrix with multiple right hand sides",
    params := [⟨"s", .int⟩, ⟨"uplo", .int⟩, ⟨"trans", .int⟩, ⟨"d", .int⟩, ⟨"m", .int⟩, ⟨"n", .int⟩,
               ⟨"alpha", .float64⟩, ⟨"a", (.slice .float64)⟩, ⟨"lda", .int⟩,
               ⟨"b", (.slice .float64)⟩, ⟨"ldb", .int⟩],
    results := [⟨"rb", (.slice .float64)⟩] }

/-- Line 483 of `blas.go`:
`CGEMM(trans, tB int, m, n, k int, alpha complex64, a []complex64, lda int, b []complex64, ldb int, beta complex64, c []complex64, ldc int) (rc []complex64)`. -/
def CGEMM : Method :=
  { level := 3, sect := "COMPLEX", name := "CGEMM",
    doc := "CGEMM matrix matrix multiply",
    params := [⟨"trans", .int⟩, ⟨"tB", .int⟩, ⟨"m", .int⟩, ⟨"n", .int⟩, ⟨"k", .int⟩,
               ⟨"alpha", .complex64⟩, ⟨"a", (.slice .complex64)⟩, ⟨"lda", .int⟩,
               ⟨"b", (.slice .complex64)⟩, ⟨"ldb", .int⟩, ⟨"beta", .complex64⟩,
               ⟨"c", (.slice .complex64)⟩, ⟨"ldc", .int⟩],
    results := [⟨"rc", (.slice .complex64)⟩] }

/-- Line 486 of `blas.go`:
`CSYMM(side int, uplo int, m, n int, alpha complex64, a []complex64, lda int, b []complex64, ldb int, beta complex64, c []complex64, ldc int) (rc []complex64)`. -/
def CSYMM : Method :=
  { level := 3, sect := "COMPLEX", name := "CSYMM",
    doc := "CSYMM symmetric matrix matrix multiply",
    params := [⟨"side", .int⟩, ⟨"uplo", .int⟩, ⟨"m", .int⟩, ⟨"n", .int⟩, ⟨"alpha", .complex64⟩,
               ⟨"a", (.slice .complex64)⟩, ⟨"lda", .int⟩, ⟨"b", (.slice .complex64)⟩, ⟨"ldb", .int⟩,
               ⟨"beta", .complex64⟩, ⟨"c", (.slice .complex64)⟩, ⟨"ldc", .int⟩],
    results := [⟨"rc", (.slice .complex64)⟩] }

/-- Line 489 of `blas.go`:
`CHEMM(side int, uplo int, m, n int, alpha complex64, a []complex64, lda int, b []complex64, ldb int, beta complex64, c []complex64, ldc int) (rc []complex64)`. -/
def CHEMM : Method :=
  { level := 3, sect := "COMPLEX", name := "CHEMM",
    doc := "CHEMM hermitian matrix matrix multiply",
    params := [⟨"side", .int⟩, ⟨"uplo", .int⟩, ⟨"m", .int⟩, ⟨"n", .int⟩, ⟨"alpha", .complex64⟩,
               ⟨"a", (.slice .complex64)⟩, ⟨"lda", .int⟩, ⟨"b", (.slice .complex64)⟩, ⟨"ldb", .int⟩,
               ⟨"beta", .complex64⟩, ⟨"c", (.slice .complex64)⟩, ⟨"ldc", .int⟩],
    results := [⟨"rc", (.slice .complex64)⟩] }

/-- Line 492 of `blas.go`:
`CSYRK(uplo int, t int, n, k int, alpha complex64, a []complex64, lda int, beta complex64, c []complex64, ldc int) (rc []complex64)`. -/
def CSYRK : Method :=
  { level := 3, sect := "COMPLEX", name := "CSYRK",
    doc := "CSYRK symmetric rank-k update to a matrix",
    params := [⟨"uplo", .int⟩, ⟨"t", .int⟩, ⟨"n", .int⟩, ⟨"k", .int⟩, ⟨"alpha", .complex64⟩,
               ⟨"a", (.slice .complex64)⟩, ⟨"lda", .int⟩, ⟨"beta", .complex64⟩,
               ⟨"c", (.slice .complex64)⟩, ⟨"ldc", .int⟩],
    results := [⟨"rc", (.slice .complex64)⟩] }

/-- Line 495 of `blas.go`:
`CHERK(uplo int, t int, n, k int, alpha float32, a []complex64, lda int, beta float32, c []complex64, ldc int) (rc []complex64)`. -/
def CHERK : Method :=
  { level := 3, sect := "COMPLEX", name := "CHERK",
    doc := "CHERK hermitian rank-k update to a matrix",
    params := [⟨"uplo", .int⟩, ⟨"t", .int⟩, ⟨"n", .int⟩, ⟨"k", .int⟩, ⟨"alpha", .float32⟩,
               ⟨"a", (.slice .complex64)⟩, ⟨"lda", .int⟩, ⟨"beta", .float32⟩,
               ⟨"c", (.slice .complex64)⟩, ⟨"ldc", .int⟩],
    results := [⟨"rc", (.slice .complex64)⟩] }

/-- Line 498 of `blas.go`:
`CSYR2K(uplo int, t int, n, k int, alpha complex64, a []complex64, lda int, b []complex64, ldb int, beta complex64, c []complex64, ldc int) (rc []complex64)`. -/
def CSYR2K : Method :=
  { level := 3, sect := "COMPLEX", name := "CSYR2K",
    doc := "CSYR2K symmetric rank-2k update to a matrix",
    params := [⟨"uplo", .int⟩, ⟨"t", .int⟩, ⟨"n", .int⟩, ⟨"k", .int⟩, ⟨"alpha", .complex64⟩,
               ⟨"a", (.slice .complex64)⟩, ⟨"lda", .int⟩, ⟨"b", (.slice .complex64)⟩, ⟨"ldb", .int⟩,
               ⟨"beta", .complex64⟩, ⟨"c", (.slice .complex64)⟩, ⟨"ldc", .int⟩],
    results := [⟨"rc", (.slice .complex64)⟩] }

/-- Line 501 of `blas.go`:
`CHER2K(uplo int, t int, n, k int, alpha complex64, a []complex64, lda int, b []complex64, ldb int, beta float32, c []complex64, ldc int) (rc []complex64)`. -/
def CHER2K : Method :=
  { level := 3, sect := "COMPLEX", name := "CHER2K",
    doc := "CHER2K hermitian rank-2k update to a matrix",
    params := [⟨"uplo", .int⟩, ⟨"t", .int⟩, ⟨"n", .int⟩, ⟨"k", .int⟩, ⟨"alpha", .complex64⟩,
               ⟨"a", (.slice .complex64)⟩, ⟨"lda", .int⟩, ⟨"b", (.slice .complex64)⟩, ⟨"ldb", .int⟩,
               ⟨"beta", .float32⟩, ⟨"c", (.slice .complex64)⟩, ⟨"ldc", .int⟩],
    results := [⟨"rc", (.slice .complex64)⟩] }

/-- Line 504 of `blas.go`:
`CTRMM(side int, uplo int, trans int, d int, m, n int, alpha complex64, a []complex64, lda int, b []complex64, ldb int) (rb []complex64)`. -/
def CTRMM : Method :=
  { level := 3, sect := "COMPLEX", name := "CTRMM",
    doc := "CTRMM triangular matrix matrix multiply",
    params := [⟨"side", .int⟩, ⟨"uplo", .int⟩, ⟨"trans", .int⟩, ⟨"d", .int⟩, ⟨"m", .int⟩,
               ⟨"n", .int⟩, ⟨"alpha", .complex64⟩, ⟨"a", (.slice .complex64)⟩, ⟨"lda", .int⟩,
               ⟨"b", (.slice .complex64)⟩, ⟨"ldb", .int⟩],
    results := [⟨"rb", (.slice .complex64)⟩] }

/-- Line 507 of `blas.go`:
`CTRSM(side int, uplo int, trans int, d int, m, n int, alpha complex64, a []complex64, lda int, b []complex64, ldb int) (rb []complex64)`. -/
def CTRSM : Method :=
  { level := 3, sect := "COMPLEX", name := "CTRSM",
    doc := "CTRSM solving triangular matrix with multiple right hand sides",
    params := [⟨"side", .int⟩, ⟨"uplo", .int⟩, ⟨"trans", .int⟩, ⟨"d", .int⟩, ⟨"m", .int⟩,
               ⟨"n", .int⟩, ⟨"alpha", .complex64⟩, ⟨"a", (.slice .complex64)⟩, ⟨"lda", .int⟩,
               ⟨"b", (.slice .complex64)⟩, ⟨"ldb", .int⟩],
    results := [⟨"rb", (.slice .complex64)⟩] }

/-- Line 514 of `blas.go`:
`ZGEMM(trans, tB int, m, n, k int, alpha complex128, a []complex128, lda int, b []complex128, ldb int, beta complex128, c []complex128, ldc int) (rc []complex128)`. -/
def ZGEMM : Method :=
  { level := 3, sect := "DOUBLE COMPLEX", name := "ZGEMM",
    doc := "ZGEMM matrix matrix multiply",
    params := [⟨"trans", .int⟩, ⟨"tB", .int⟩, ⟨"m", .int⟩, ⟨"n", .int⟩, ⟨"k", .int⟩,
               ⟨"alpha", .complex128⟩, ⟨"a", (.slice .complex128)⟩, ⟨"lda", .int⟩,
               ⟨"b", (.slice .complex128)⟩, ⟨"ldb", .int⟩, ⟨"beta", .complex128⟩,
               ⟨"c", (.slice .complex128)⟩, ⟨"ldc", .int⟩],
    results := [⟨"rc", (.slice .complex128)⟩] }

/-- Line 517 of `blas.go`:
`ZSYMM(side int, uplo int, m, n int, alpha complex128, a []complex128, lda int, b []complex128, ldb int, beta complex128, c []complex128, ldc int) (rc []complex128)`. -/
def ZSYMM : Method :=
  { level := 3, sect := "DOUBLE COMPLEX", name := "ZSYMM",
    doc := "ZSYMM symmetric matrix matrix multiply",
    params := [⟨"side", .int⟩, ⟨"uplo", .int⟩, ⟨"m", .int⟩, ⟨"n", .int⟩, ⟨"alpha", .complex128⟩,
               ⟨"a", (.slice .complex128)⟩, ⟨"lda", .int⟩, ⟨"b", (.slice .complex128)⟩,
               ⟨"ldb", .int⟩, ⟨"beta", .complex128⟩, ⟨"c", (.slice .complex128)⟩, ⟨"ldc", .int⟩],
    results := [⟨"rc", (.slice .complex128)⟩] }

/-- Line 520 of `blas.go`:
`ZHEMM(side int, uplo int, m, n int, alpha complex128, a []complex128, lda int, b []complex128, ldb int, beta complex128, c []complex128, ldc int) (rc []complex128)`. -/
def ZHEMM : Method :=
  { level := 3, sect := "DOUBLE COMPLEX", name := "ZHEMM",
    doc := "ZHEMM hermitian matrix matrix multiply",
    params := [⟨"side", .int⟩, ⟨"uplo", .int⟩, ⟨"m", .int⟩, ⟨"n", .int⟩, ⟨"alpha", .complex128⟩,
               ⟨"a", (.slice .complex128)⟩, ⟨"lda", .int⟩, ⟨"b", (.slice .complex128)⟩,
               ⟨"ldb", .int⟩, ⟨"beta", .complex128⟩, ⟨"c", (.slice .complex128)⟩, ⟨"ldc", .int⟩],
    results := [⟨"rc", (.slice .complex128)⟩] }

/-- Line 523 of `blas.go`:
`ZSYRK(uplo int, t int, n, k int, alpha complex128, a []complex128, lda int, beta complex128, c []complex128, ldc int) (rc []complex128)`. -/
def ZSYRK : Method :=
  { level := 3, sect := "DOUBLE COMPLEX", name := "ZSYRK",
    doc := "ZSYRK symmetric rank-k update to a matrix",
    params := [⟨"uplo", .int⟩, ⟨"t", .int⟩, ⟨"n", .int⟩, ⟨"k", .int⟩, ⟨"alpha", .complex128⟩,
               ⟨"a", (.slice .complex128)⟩, ⟨"lda", .int⟩, ⟨"beta", .complex128⟩,
               ⟨"c", (.slice .complex128)⟩, ⟨"ldc", .int⟩],
    results := [⟨"rc", (.slice .complex128)⟩] }

/-- Line 526 of `blas.go`:
`ZHERK(uplo int, t int, n, k int, alpha float64, a []complex128, lda int, beta float64, c []complex128, ldc int) (rc []complex128)`. -/
def ZHERK : Method :=
  { level := 3, sect := "DOUBLE COMPLEX", name := "ZHERK",
    doc := "ZHERK hermitian rank-k update to a matrix",
    params := [⟨"uplo", .int⟩, ⟨"t", .int⟩, ⟨"n", .int⟩, ⟨"k", .int⟩, ⟨"alpha", .float64⟩,
               ⟨"a", (.slice .complex128)⟩, ⟨"lda", .int⟩, ⟨"beta", .float64⟩,
               ⟨"c", (.slice .complex128)⟩, ⟨"ldc", .int⟩],
    results := [⟨"rc", (.slice .complex128)⟩] }

/-- Line 529 of `blas.go`:
`ZSYR2K(uplo int, t int, n, k int, alpha complex128, a []complex128, lda int, b []complex128, ldb int, beta complex128, c []complex128, ldc int) (rc []complex128)`. -/
def ZSYR2K : Method :=
  { level := 3, sect := "DOUBLE COMPLEX", name := "ZSYR2K",
    doc := "ZSYR2K symmetric rank-2k update to a matrix",
    params := [⟨"uplo", .int⟩, ⟨"t", .int⟩, ⟨"n", .int⟩, ⟨"k", .int⟩, ⟨"alpha", .complex128⟩,
               ⟨"a", (.slice .complex128)⟩, ⟨"lda", .int⟩, ⟨"b", (.slice .complex128)⟩,
               ⟨"ldb", .int⟩, ⟨"beta", .complex128⟩, ⟨"c", (.slice .complex128)⟩, ⟨"ldc", .int⟩],
    results := [⟨"rc", (.slice .complex128)⟩] }

/-- Line 532 of `blas.go`:
`ZHER2K(uplo int, t int, n, k int, alpha complex128, a []complex128, lda int, b []complex128, ldb int, beta float64, c []complex128, ldc int) (rc []complex128)`. -/
def ZHER2K : Method :=
  { level := 3, sect := "DOUBLE COMPLEX", name := "ZHER2K",
    doc := "ZHER2K hermitian rank-2k update to a matrix",
    params := [⟨"uplo", .int⟩, ⟨"t", .int⟩, ⟨"n", .int⟩, ⟨"k", .int⟩, ⟨"alpha", .complex128⟩,
               ⟨"a", (.slice .complex128)⟩, ⟨"lda", .int⟩, ⟨"b", (.slice .complex128)⟩,
               ⟨"ldb", .int⟩, ⟨"beta", .float64⟩, ⟨"c", (.slice .complex128)⟩, ⟨"ldc", .int⟩],
    results := [⟨"rc", (.slice .complex128)⟩] }

/-- Line 535 of `blas.go`:
`ZTRMM(side int, uplo int, trans int, d int, m, n int, alpha complex128, a []complex128, lda int, b []complex128, ldb int) (rb []complex128)`. -/
def ZTRMM : Method :=
  { level := 3, sect := "DOUBLE COMPLEX", name := "ZTRMM",
    doc := "ZTRMM triangular matrix matrix multiply",
    params := [⟨"side", .int⟩, ⟨"uplo", .int⟩, ⟨"trans", .int⟩, ⟨"d", .int⟩, ⟨"m", .int⟩,
               ⟨"n", .int⟩, ⟨"alpha", .complex128⟩, ⟨"a", (.slice .complex128)⟩, ⟨"lda", .int⟩,
               ⟨"b", (.slice .complex128)⟩, ⟨"ldb", .int⟩],
    results := [⟨"rb", (.slice .complex128)⟩] }

/-- Line 538 of `blas.go`:
`ZTRSM(side int, uplo int, trans int, d int, m, n int, alpha complex128, a []complex128, lda int, b []complex128, ldb int) (rb []complex128)`. -/
def ZTRSM : Method :=
  { level := 3, sect := "DOUBLE COMPLEX", name := "ZTRSM",
    doc := "ZTRSM solving triangular matrix with multiple right hand sides",
    params := [⟨"side", .int⟩, ⟨"uplo", .int⟩, ⟨"trans", .int⟩, ⟨"d", .int⟩, ⟨"m", .int⟩,
               ⟨"n", .int⟩, ⟨"alpha", .complex128⟩, ⟨"a", (.slice .complex128)⟩, ⟨"lda", .int⟩,
               ⟨"b", (.slice .complex128)⟩, ⟨"ldb", .int⟩],
    results := [⟨"rb", (.slice .complex128)⟩] }

/-- The method set of `type BLAS interface`, in declaration order. -/
def BLAS : List Method := [
  -- level 1, SINGLE
  SROTG, SROTMG, SROT, SROTM, SSWAP, SSCAL, SCOPY, SAXPY, SDOT, SDSDOT, SNRM2, SCNRM2,
  SASUM, ISAMAX,
  -- level 1, DOUBLE
  DROTG, DROTMG, DROT, DROTM, DSWAP, DSCAL, DCOPY, DAXPY, DDOT, DSDOT, DNRM2, DZNRM2,
  DASUM, IDAMAX,
  -- level 1, COMPLEX
  CROTG, CSROT, CSWAP, CSCAL, CSSCAL, CCOPY, CAXPY, CDOTU, CDOTC, SCASUM, ICAMAX,
  -- level 1, DOUBLE COMPLEX
  ZSWAP, ZSCAL, ZDSCAL, ZCOPY, ZAXPY, ZDOTU, ZDOTC, DZASUM, IZAMAX,
  -- level 2, SINGLE
  SGEMV, SGBMV, SSYMV, SSBMV, SSPMV, STRMV, STBMV, STPMV, STRSV, STBSV, STPSV, SGER, SSYR,
  SSPR, SSYR2, SSPR2,
  -- level 2, DOUBLE
  DGEMV, DGBMV, DSYMV, DSBMV, DSPMV, DTRMV, DTBMV, DTPMV, DTRSV, DTBSV, DTPSV, DGER, DSYR,
  DSPR, DSYR2, DSPR2,
  -- level 2, COMPLEX
  CGEMV, CGBMV, CHEMV, CHBMV, CHPMV, CTRMV, CTBMV, CTPMV, CTRSV, CTBSV, CTPSV, CGERU,
  CGERC, CHER, CHPR, CHER2, CHPR2,
  -- level 2, DOUBLE COMPLEX
  ZGEMV, ZGBMV, ZHEMV, ZHBMV, ZHPMV, ZTRMV, ZTBMV, ZTPMV, ZTRSV, ZTBSV, ZTPSV, ZGERU,
  ZGERC, ZHER, ZHPR, ZHER2, ZHPR2,
  -- level 3, SINGLE
  SGEMM, SSYMM, SSYRK, SSYR2K, STRMM, STRSM,
  -- level 3, DOUBLE
  DGEMM, DSYMM, DSYRK, DSYR2K, DTRMM, DTRSM,
  -- level 3, COMPLEX
  CGEMM, CSYMM, CHEMM, CSYRK, CHERK, CSYR2K, CHER2K, CTRMM, CTRSM,
  -- level 3, DOUBLE COMPLEX
  ZGEMM, ZSYMM, ZHEMM, ZSYRK, ZHERK, ZSYR2K, ZHER2K, ZTRMM, ZTRSM]

/-! ## Vocabulary for stating the catalog's properties -/

/-- Names of the declared methods. -/
def methodNames : List String := BLAS.map Method.name

/-- Look a method up by name. -/
def lookup (nm : String) : Option Method := BLAS.find? (fun m => m.name == nm)

/-- The four numeric domains, by their one-letter prefix. -/
inductive Domain where
  | S
  | D
  | C
  | Z
  deriving DecidableEq, Repr

/-- The prefix letter of a domain. -/
def Domain.letter : Domain → String
  | .S => "S"
  | .D => "D"
  | .C => "C"
  | .Z => "Z"

/-- The element type of a domain. -/
def Domain.elem : Domain → GoType
  | .S => .float32
  | .D => .float64
  | .C => .complex64
  | .Z => .complex128

/-- The real type of a domain's precision. -/
def Domain.real : Domain → GoType
  | .S => .float32
  | .D => .float64
  | .C => .float32
  | .Z => .float64

/-- The section header the methods of a domain stand under. -/
def Domain.header : Domain → String
  | .S => "SINGLE"
  | .D => "DOUBLE"
  | .C => "COMPLEX"
  | .Z => "DOUBLE COMPLEX"

/-- All four domains. -/
def Domain.all : List Domain := [.S, .D, .C, .Z]

/-- Slice types, the types of the buffers. -/
def GoType.isSlice : GoType → Bool
  | .slice _ => true
  | _ => false

/-- Floating-point and complex scalar types. -/
def GoType.isScalar : GoType → Bool
  | .float32 => true
  | .float64 => true
  | .complex64 => true
  | .complex128 => true
  | _ => false

/-- Real floating-point types. -/
def GoType.isReal : GoType → Bool
  | .float32 => true
  | .float64 => true
  | _ => false

/-- Integer types: `int`, and `rune`, which Go defines as `int32`. -/
def GoType.isInteger : GoType → Bool
  | .int => true
  | .rune => true
  | _ => false

/-- Single precision replaced by double precision. -/
def GoType.toDouble : GoType → GoType
  | .float32 => .float64
  | .complex64 => .complex128
  | .slice e => .slice e.toDouble
  | t => t

/-- Real scalars replaced by the complex scalars of the same precision. -/
def GoType.toComplex : GoType → GoType
  | .float32 => .complex64
  | .float64 => .complex128
  | .slice e => .slice e.toComplex
  | t => t

/-- Types of a list of slots, by position. -/
def types (fs : List Field) : List GoType := fs.map Field.ty

/-- Two signatures have the same number of parameters and of results and, at
every position, the type of the second is the image under `f` of the type of
the first. -/
abbrev agree (f : GoType → GoType) (a b : Method) : Prop :=
  (types a.params).map f = types b.params ∧ (types a.results).map f = types b.results

/-- The method whose name is letter `p` followed by the name of `m` without
its first letter. -/
def counterpart (p : Char) (m : Method) : Option Method :=
  lookup (String.mk (p :: m.name.data.drop 1))

/-- The name begins with the letter `p`. -/
abbrev hasPrefix (p : Char) (m : Method) : Prop := m.name.data.head? = some p

/-- Method `m` of level 2 or 3 with prefix `p` has a counterpart with prefix
`q` whose signature is the image of its own under `f`. -/
abbrev mirrored (f : GoType → GoType) (p q : Char) (m : Method) : Prop :=
  2 ≤ m.level → hasPrefix p m → ∃ m2 ∈ counterpart q m, agree f m m2

/-- The doc comment says the method sets up a Givens rotation. -/
abbrev isRotSetup (m : Method) : Prop := m.doc = m.name ++ " setup Givens rotation"

/-- The doc comment says the method applies a Givens rotation. -/
abbrev isRotApply (m : Method) : Prop := m.doc = m.name ++ " apply Givens rotation"

/-- Every operand other than the `int` counts and increments is a scalar or
a vector of the domain's element type. -/
abbrev overDomain (d : Domain) (m : Method) : Prop :=
  ∀ f ∈ m.params ++ m.results, f.ty = .int ∨ f.ty = d.elem ∨ f.ty = .slice d.elem

/-- The four enumerated modifiers. -/
inductive Modifier where
  | trans
  | uplo
  | diag
  | side
  deriving DecidableEq, Repr

/-- The word a constant's name begins with, per modifier. -/
def Modifier.keyword : Modifier → String
  | .trans => "Trans"
  | .uplo => "Uplo"
  | .diag => "Diag"
  | .side => "Side"

/-- The parameter names the interface uses for a modifier. -/
def Modifier.paramNames : Modifier → List String
  | .trans => ["trans", "transA", "transB", "tB", "t"]
  | .uplo => ["uplo"]
  | .diag => ["diag", "d"]
  | .side => ["side", "s"]

/-- All four modifiers. -/
def Modifier.all : List Modifier := [.trans, .uplo, .diag, .side]

/-- The constants declared for a modifier: those whose name begins with the
modifier's keyword. -/
def codes (k : Modifier) : List Const :=
  consts.filter (fun c => k.keyword.data.isPrefixOf c.name.data)

/-- The parameters of `m` that carry modifier `k`. Only Level 2 and Level 3
methods take modifiers (at Level 1 `s` is the sine of a rotation). -/
def modifierParams (k : Modifier) (m : Method) : List Field :=
  if 2 ≤ m.level then m.params.filter (fun f => f.name ∈ k.paramNames) else []

/-- The parameters of a Level 2 or Level 3 method that precede its first
dimension (`m` or `n`). -/
def leadingParams (m : Method) : List Field :=
  if 2 ≤ m.level then m.params.takeWhile (fun f => f.name ≠ "m" ∧ f.name ≠ "n") else []

/-- The converse of `mirrored`: method `m` of level 2 or 3 with prefix `q` has
a counterpart with prefix `p` whose signature maps onto its own under `f`. -/
abbrev mirroredBack (f : GoType → GoType) (p q : Char) (m : Method) : Prop :=
  2 ≤ m.level → hasPrefix q m → ∃ m1 ∈ counterpart p m, agree f m1 m

/-- The mnemonics declared both in a real and in a complex domain. -/
def sharedMnemonics : List String :=
  ["GEMV", "GBMV", "TRMV", "TBMV", "TPMV", "TRSV", "TBSV", "TPSV",
   "GEMM", "SYMM", "SYRK", "SYR2K", "TRMM", "TRSM"]

/-- The methods `p ++ mn` and `q ++ mn` are both declared and the signature
of the second is the image under `f` of that of the first. -/
abbrev sharedAgree (f : GoType → GoType) (p q mn : String) : Prop :=
  ∃ a ∈ lookup (p ++ mn), ∃ b ∈ lookup (q ++ mn), agree f a b

/-- The domain whose section header a method stands under. -/
def domainOf (m : Method) : Option Domain :=
  Domain.all.find? (fun d => d.header == m.sect)

/-- The slot that holds the rotation cosine: the result `c` of a rotation
setup, the parameter `c` of a rotation apply. -/
def cosine (m : Method) : Option Field :=
  if isRotSetup m then m.results.find? (fun f => f.name == "c")
  else if isRotApply m then m.params.find? (fun f => f.name == "c")
  else none

/-- The buffer parameters of a method, in order. -/
def buffers (m : Method) : List Field := m.params.filter (fun f => f.ty.isSlice)

/-- The results a method would have if it returned every buffer it takes,
each under the name `r` followed by the buffer's name. -/
def returned (bs : List Field) : List Field :=
  bs.map (fun b => ⟨"r" ++ b.name, b.ty⟩)

/-- The mnemonics of the naming family `{domain}{SCAL,COPY,...}`. -/
def family : List String :=
  ["SCAL", "COPY", "AXPY", "DOT", "NRM2", "ASUM", "AMAX", "GEMV", "SYMV", "GEMM", "TRSM"]

/-- A Level 1 method documented as `what` is declared whose vector operand
`x` has the element type of domain `d`. -/
abbrev declaresVec (d : Domain) (what : String) : Prop :=
  ∃ m ∈ BLAS, m.level = 1 ∧ m.doc = m.name ++ " " ++ what ∧ ⟨"x", .slice d.elem⟩ ∈ m.params

/-- The Level 1 method named `nm` is declared, documented as `what`, with
vector operand `x` of the element type of domain `d`. -/
abbrev declaresVecNamed (d : Domain) (nm what : String) : Prop :=
  ∃ m ∈ lookup nm, m.level = 1 ∧ m.doc = nm ++ " " ++ what ∧ ⟨"x", .slice d.elem⟩ ∈ m.params

/-- The method named by the letter of `d` followed by `mn` is declared at
level `lvl`, in the section of `d`, and all its buffers have the element type
of `d`. -/
abbrev declaresAt (lvl : Nat) (d : Domain) (mn : String) : Prop :=
  ∃ m ∈ lookup (d.letter ++ mn),
    m.level = lvl ∧ m.sect = d.header ∧ ∀ b ∈ buffers m, b.ty = .slice d.elem

/-- The parameters before the one named `nm`, that parameter, and the
parameters after it. -/
def splitAtName (nm : String) : List Field → Option (List Field × Field × List Field)
  | [] => none
  | f :: rest =>
    if f.name = nm then some ([], f, rest)
    else (splitAtName nm rest).map (fun s => (f :: s.1, s.2.1, s.2.2))

/-- Convention for `alpha`: it is a scalar, every parameter before it is
integer-typed (a modifier or a dimension), and the parameter right after it
is a buffer, hence the first buffer. -/
abbrev alphaConvention (m : Method) : Prop :=
  ∀ s ∈ splitAtName "alpha" m.params,
    s.2.1.ty.isScalar = true ∧ (∀ g ∈ s.1, g.ty.isInteger = true) ∧
    ∃ b ∈ s.2.2.head?, b.ty.isSlice = true ∧ (buffers m).head? = some b

/-- Convention for `beta`: it is a scalar, the parameters after it are exactly
the output buffer and its increment or leading dimension, every other buffer
(and at least one) comes before it, and the method returns the output buffer's
type. -/
abbrev betaConvention (m : Method) : Prop :=
  ∀ s ∈ splitAtName "beta" m.params,
    s.2.1.ty.isScalar = true ∧ (∃ b ∈ s.1, b.ty.isSlice = true) ∧
    ∃ out ∈ s.2.2[0]?, ∃ ld ∈ s.2.2[1]?,
      s.2.2.length = 2 ∧ out.ty.isSlice = true ∧ ld.ty = GoType.int ∧
      (out.name, ld.name) ∈ [("y", "incY"), ("c", "ldc")] ∧
      buffers m = s.1.filter (fun f => f.ty.isSlice) ++ [out] ∧
      types m.results = [out.ty]

/-! ## Level 1 kernels

`blas.go` declares the Level 1 methods but holds no body for them. The
kernels below are modelled from the specification's data model (strided
vector view), its Level 1 contract and its error taxonomy. A buffer is a
list; a call returns the final contents of the buffers it mutates, or `none`
when it rejects its arguments. -/

/-- Modelled from the spec: the arithmetic of a numeric domain (add, multiply,
magnitude), which the missing kernel bodies compute with. `α` is the element
type and `ρ` the real type of the same precision; `abs1` is the classic
magnitude `|re| + |im|`, `modulus` the true modulus. -/
structure Arith (α ρ : Type) where
  add : α → α → α
  sub : α → α → α
  mul : α → α → α
  abs1 : α → ρ
  modulus : α → ρ
  rzero : ρ
  rone : ρ
  radd : ρ → ρ → ρ
  rmul : ρ → ρ → ρ
  rdiv : ρ → ρ → ρ
  rlt : ρ → ρ → Bool
  sqrt : ρ → ρ

/-- Modelled from the spec: the strided vector view, missing with the kernel
bodies. Logical element `i` of a view with increment `inc` over a buffer of
`len` slots sits at offset `i*inc` when `inc > 0`; when `inc < 0` the view
starts from the end of the buffer and walks backward; when `inc = 0` every
element is the same slot. -/
def offset (len : Nat) (inc : Int) (i : Nat) : Nat :=
  if 0 ≤ inc then i * inc.toNat else len - 1 - i * (-inc).toNat

/-- Modelled from the spec: the bounds check of the missing kernel bodies. A
view of `n > 0` elements fits its buffer when its farthest element does. -/
def fits (n : Int) (len : Nat) (inc : Int) : Bool :=
  decide ((n.toNat - 1) * inc.natAbs < len)

/-- Modelled from the spec: the validity check of a missing mutating kernel.
An increment of 0 on a mutated vector and a view that does not fit its buffer
are dimension violations. -/
def accepts (n : Int) (len : Nat) (inc : Int) : Bool :=
  inc != 0 && fits n len inc

/-- Modelled from the spec: the element loop shared by the missing kernels
that rewrite `x` and `y` in place. Element `i` of both views is replaced by
the pair `f x[i] y[i]`. -/
def zipInPlace {α : Type} (f : α → α → α × α) (n : Int) (incX incY : Int)
    (x y : List α) : Option (List α × List α) :=
  (List.range n.toNat).foldlM
    (fun (b : List α × List α) i => do
      let vx ← b.1[offset b.1.length incX i]?
      let vy ← b.2[offset b.2.length incY i]?
      let r := f vx vy
      pure (b.1.set (offset b.1.length incX i) r.1, b.2.set (offset b.2.length incY i) r.2))
    (x, y)

/-- Modelled from the spec: the missing body of the swap kernels (SSWAP,
DSWAP, CSWAP, ZSWAP). `n <= 0` is a no-op; otherwise the arguments are
checked and the elements of `x` and `y` are exchanged. -/
def swap {α : Type} (n : Int) (x : List α) (incX : Int) (y : List α) (incY : Int) :
    Option (List α × List α) :=
  if n ≤ 0 then some (x, y)
  else if accepts n x.length incX && accepts n y.length incY then
    zipInPlace (fun vx vy => (vy, vx)) n incX incY x y
  else none

/-- Modelled from the spec: the missing body of the scale kernels (SSCAL,
DSCAL, CSCAL, ZSCAL), `x := alpha*x`. `n <= 0` is a no-op. -/
def scal {α ρ : Type} (A : Arith α ρ) (n : Int) (alpha : α) (x : List α) (incX : Int) :
    Option (List α) :=
  if n ≤ 0 then some x
  else if accepts n x.length incX then
    (List.range n.toNat).foldlM
      (fun (b : List α) i => do
        let v ← b[offset b.length incX i]?
        pure (b.set (offset b.length incX i) (A.mul alpha v)))
      x
  else none

/-- Modelled from the spec: the missing body of the copy kernels (SCOPY,
DCOPY, CCOPY, ZCOPY), `y := x`; only `y` is mutated. `n <= 0` is a no-op. -/
def copy {α : Type} (n : Int) (x : List α) (incX : Int) (y : List α) (incY : Int) :
    Option (List α) :=
  if n ≤ 0 then some y
  else if fits n x.length incX && accepts n y.length incY then
    (zipInPlace (fun vx _ => (vx, vx)) n incX incY x y).map Prod.snd
  else none

/-- Modelled from the spec: the missing body of the axpy kernels (SAXPY,
DAXPY, CAXPY, ZAXPY), `y := alpha*x + y`; only `y` is mutated. `n <= 0` is a
no-op. -/
def axpy {α ρ : Type} (A : Arith α ρ) (n : Int) (alpha : α) (x : List α) (incX : Int)
    (y : List α) (incY : Int) : Option (List α) :=
  if n ≤ 0 then some y
  else if fits n x.length incX && accepts n y.length incY then
    (zipInPlace (fun vx vy => (vx, A.add (A.mul alpha vx) vy)) n incX incY x y).map Prod.snd
  else none

/-- Modelled from the spec: the missing body of the rotation apply kernels
(SROT, DROT, CSROT), which rotate two equal-length strided vectors in place:
`x[i] := c*x[i] + s*y[i]` and `y[i] := c*y[i] - s*x[i]`. `n <= 0` is a
no-op. -/
def rot {α ρ : Type} (A : Arith α ρ) (n : Int) (x : List α) (incX : Int) (y : List α)
    (incY : Int) (c s : α) : Option (List α × List α) :=
  if n ≤ 0 then some (x, y)
  else if accepts n x.length incX && accepts n y.length incY then
    zipInPlace
      (fun vx vy => (A.add (A.mul c vx) (A.mul s vy), A.sub (A.mul c vy) (A.mul s vx)))
      n incX incY x y
  else none

/-- Modelled from the spec: the missing body of the sum-of-absolute-values
kernels (SASUM, DASUM, SCASUM, DZASUM), the sum of `|re| + |im|` over the
view. `n <= 0` returns 0. -/
def asum {α ρ : Type} (A : Arith α ρ) (n : Int) (x : List α) (incX : Int) : Option ρ :=
  if n ≤ 0 then some A.rzero
  else if fits n x.length incX then
    (List.range n.toNat).foldlM
      (fun (acc : ρ) i => do
        let v ← x[offset x.length incX i]?
        pure (A.radd acc (A.abs1 v)))
      A.rzero
  else none

/-- Modelled from the spec: one step of the scaled sum of squares of the
missing norm kernels. The pair `(scale, ssq)` stands for `scale^2 * ssq`. -/
def ssqStep {α ρ : Type} (A : Arith α ρ) (st : ρ × ρ) (v : α) : ρ × ρ :=
  let a := A.modulus v
  if A.rlt A.rzero a then
    if A.rlt st.1 a then
      (a, A.radd A.rone (A.rmul st.2 (A.rmul (A.rdiv st.1 a) (A.rdiv st.1 a))))
    else (st.1, A.radd st.2 (A.rmul (A.rdiv a st.1) (A.rdiv a st.1)))
  else st

/-- Modelled from the spec: the missing body of the Euclidean norm kernels
(SNRM2, DNRM2, SCNRM2, DZNRM2), computed with overflow-avoiding scaling rather
than a naive sum of squares. `n <= 0` returns 0. -/
def nrm2 {α ρ : Type} (A : Arith α ρ) (n : Int) (x : List α) (incX : Int) : Option ρ :=
  if n ≤ 0 then some A.rzero
  else if fits n x.length incX then
    ((List.range n.toNat).foldlM
      (fun (st : ρ × ρ) i => do
        let v ← x[offset x.length incX i]?
        pure (ssqStep A st v))
      (A.rzero, A.rone)).map (fun (st : ρ × ρ) => A.rmul st.1 (A.sqrt st.2))
  else none

/-- Modelled from the spec: integer arithmetic as a numeric domain, on which
the modelled kernels can be run; the square root is the integer one. -/
def intArith : Arith Int Int :=
  { add := fun a b => a + b, sub := fun a b => a - b, mul := fun a b => a * b,
    abs1 := fun a => a.natAbs, modulus := fun a => a.natAbs,
    rzero := 0, rone := 1,
    radd := fun a b => a + b, rmul := fun a b => a * b, rdiv := fun a b => a / b,
    rlt := fun a b => decide (a < b), sqrt := fun a => a.toNat.sqrt }

/-! ## Result types -/

/-- The types through which a Go method could report failure: `error` and
`bool`, both predeclared type names. -/
def failureTypes : List GoType := [.named "error", .named "bool"]

/-- A result that carries data only: a floating-point or complex scalar, the
`int` index of an index-of-maximum method, a slice, or a parameter record. -/
abbrev plainResult (m : Method) (r : Field) : Prop :=
  r.ty.isScalar = true ∨
  (r.ty = GoType.int ∧ m.doc = m.name ++ " index of max abs value") ∨
  r.ty.isSlice = true ∨
  r.ty = GoType.named SParams.name ∨ r.ty = GoType.named DParams.name

/-! ## The catalog: rotations, domain symmetry, modifiers, parameter records -/

set_option maxRecDepth 100000

/-- Claim C1: a rotation setup and a rotation apply over the domain's element
type are declared for the domains S, D and C (SROTG/SROT, DROTG/DROT,
CROTG/CSROT), but not for Z: no method over `complex128` is documented as a
rotation setup or apply, no method is named ZROTG, ZROT, ZDROT or ZDROTF, and
the interface only carries the two comments that announce them. -/
theorem rotation_declared_except_complex_double :
    (∀ d ∈ [Domain.S, Domain.D, Domain.C],
        (∃ m ∈ BLAS, m.sect = d.header ∧ isRotSetup m ∧ overDomain d m) ∧
        (∃ m ∈ BLAS, m.sect = d.header ∧ isRotApply m ∧ overDomain d m)) ∧
    (¬ ∃ m ∈ BLAS, (isRotSetup m ∨ isRotApply m) ∧
        (m.sect = Domain.Z.header ∨ overDomain Domain.Z m)) ∧
    lookup "ZROTG" = none ∧ lookup "ZROT" = none ∧ lookup "ZDROT" = none ∧
    lookup "ZDROTF" = none ∧
    undeclared = [(1, "DOUBLE COMPLEX", "ZROTG setup Givens rotation"),
                  (1, "DOUBLE COMPLEX", "ZDROTF apply Givens rotation")] := by
  decide

/-- Claim C2: the Level 2 and Level 3 signatures of the four domains differ
only in the scalar type, except at STRMM and STRSM, whose transpose parameter
(position 2) is `rune` where DTRMM, DTRSM, CTRMM and CTRSM have `int`: with
these two left out every S method mirrors a D method and conversely, every C
method mirrors a Z method and conversely, and the shared mnemonics agree
between real and complex; STRMM and STRSM themselves do not agree with their
counterparts. -/
theorem signatures_mirror_except_strmm_strsm :
    (∀ m ∈ BLAS, m.name ∉ ["STRMM", "STRSM"] → mirrored GoType.toDouble 'S' 'D' m) ∧
    (∀ m ∈ BLAS, m.name ∉ ["DTRMM", "DTRSM"] → mirroredBack GoType.toDouble 'S' 'D' m) ∧
    (∀ m ∈ BLAS, mirrored GoType.toDouble 'C' 'Z' m) ∧
    (∀ m ∈ BLAS, mirroredBack GoType.toDouble 'C' 'Z' m) ∧
    (∀ mn ∈ sharedMnemonics, mn ∉ ["TRMM", "TRSM"] → sharedAgree GoType.toComplex "S" "C" mn) ∧
    (∀ mn ∈ sharedMnemonics, sharedAgree GoType.toComplex "D" "Z" mn) ∧
    (types STRMM.params)[2]? = some GoType.rune ∧
    (types STRSM.params)[2]? = some GoType.rune ∧
    (types DTRMM.params)[2]? = some GoType.int ∧
    (types DTRSM.params)[2]? = some GoType.int ∧
    (types CTRMM.params)[2]? = some GoType.int ∧
    (types CTRSM.params)[2]? = some GoType.int ∧
    ¬ mirrored GoType.toDouble 'S' 'D' STRMM ∧
    ¬ mirrored GoType.toDouble 'S' 'D' STRSM ∧
    ¬ mirroredBack GoType.toDouble 'S' 'D' DTRMM ∧
    ¬ mirroredBack GoType.toDouble 'S' 'D' DTRSM ∧
    ¬ sharedAgree GoType.toComplex "S" "C" "TRMM" ∧
    ¬ sharedAgree GoType.toComplex "S" "C" "TRSM" := by
  refine ⟨?_, ?_, ?_, ?_, ?_, ?_, ?_, ?_, ?_, ?_, ?_, ?_, ?_, ?_, ?_, ?_, ?_, ?_⟩ <;> decide

/-- Claim C3, as stated, fails: the constant block holds three transpose
codes, two triangle codes and two diagonal codes, but not two codes for the
operand side. -/
theorem side_codes_not_declared :
    ¬ ((codes Modifier.trans).length = 3 ∧ (codes Modifier.uplo).length = 2 ∧
       (codes Modifier.diag).length = 2 ∧ (codes Modifier.side).length = 2) := by
  decide

/-- Claim C3, amended: the constant block is exactly the three transpose codes
`N`, `T`, `C`, the two triangle codes `U`, `L` and the two diagonal codes `U`,
`N`, in that order; it declares no code for the operand side. -/
theorem modifier_codes :
    codes Modifier.trans = [TransN, TransT, TransC] ∧
    codes Modifier.uplo = [UploU, UploL] ∧
    codes Modifier.diag = [DiagU, DiagN] ∧
    codes Modifier.side = [] ∧
    consts = codes Modifier.trans ++ codes Modifier.uplo ++ codes Modifier.diag ∧
    consts.map Const.value = ['N', 'T', 'C', 'U', 'L', 'U', 'N'] := by
  decide

/-- Claim C4: the seven constants are typed `rune`, but the modifier
parameters are not: the transpose parameter of SGEMV is `int`, and so is every
transpose, triangle and diagonal parameter of every method except the
transpose parameter of STRMM and STRSM, which alone is `rune`. The parameter
names used to find the modifiers cover every parameter that precedes the
first dimension of a Level 2 or Level 3 method. -/
theorem modifier_params_int_except_strmm_strsm :
    (∀ c ∈ consts, c.ty = GoType.rune) ∧
    modifierParams Modifier.trans SGEMV = [⟨"trans", GoType.int⟩] ∧
    modifierParams Modifier.trans STRMM = [⟨"trans", GoType.rune⟩] ∧
    modifierParams Modifier.trans STRSM = [⟨"trans", GoType.rune⟩] ∧
    (∀ m ∈ BLAS, ∀ k ∈ [Modifier.trans, Modifier.uplo, Modifier.diag],
      ∀ f ∈ modifierParams k m,
        f.ty = if k = Modifier.trans ∧ m.name ∈ ["STRMM", "STRSM"]
               then GoType.rune else GoType.int) ∧
    (∀ m ∈ BLAS, ∀ f ∈ leadingParams m, ∃ k ∈ Modifier.all, f ∈ modifierParams k m) := by
  decide

/-- Claim C5: both parameter records have five fields of the domain's scalar
type, and SParams names them FLAG, H11, H21, H12, H22; DParams names its
fifth field H23, so the two records do not have the same field names. -/
theorem dparams_fifth_field_h23 :
    types SParams.fields = List.replicate 5 GoType.float32 ∧
    SParams.fields.map Field.name = ["FLAG", "H11", "H21", "H12", "H22"] ∧
    types DParams.fields = List.replicate 5 GoType.float64 ∧
    DParams.fields.map Field.name = ["FLAG", "H11", "H21", "H12", "H23"] ∧
    SParams.fields.map Field.name ≠ DParams.fields.map Field.name := by
  decide

/-! ## The catalog: cosines, returned buffers, naming, argument order -/

/-- Claim C6: a rotation cosine appears in six signatures (result `c` of
SROTG, DROTG, CROTG, parameter `c` of SROT, DROT, CSROT). In the real domains
it has the real type of the domain, `float32` in SROTG and SROT, `float64` in
DROTG and DROT; but CROTG returns it, and CSROT takes it, as `complex64`, not
as the real type `float32` of the domain's precision. Elsewhere the interface
gives the real scalar of an operation on complex data the real type, under
the same mixed prefixes: `alpha` is `float32` in CSSCAL and `float64` in
ZDSCAL (against `complex64` in CSCAL and `complex128` in ZSCAL), and SCNRM2
and SCASUM return `float32`, DZNRM2 and DZASUM `float64`. -/
theorem complex_rotation_cosine_not_real :
    (BLAS.filter (fun m => (cosine m).isSome)).map Method.name =
      ["SROTG", "SROT", "DROTG", "DROT", "CROTG", "CSROT"] ∧
    cosine SROTG = some ⟨"c", GoType.float32⟩ ∧
    cosine SROT = some ⟨"c", GoType.float32⟩ ∧
    cosine DROTG = some ⟨"c", GoType.float64⟩ ∧
    cosine DROT = some ⟨"c", GoType.float64⟩ ∧
    (∀ m ∈ BLAS, m.sect ∈ ["SINGLE", "DOUBLE"] →
      ∀ f ∈ cosine m, ∃ d ∈ domainOf m, f.ty = d.real) ∧
    CROTG ∈ BLAS ∧ CSROT ∈ BLAS ∧
    domainOf CROTG = some Domain.C ∧ domainOf CSROT = some Domain.C ∧
    Domain.C.real = GoType.float32 ∧
    cosine CROTG = some ⟨"c", GoType.complex64⟩ ∧
    cosine CSROT = some ⟨"c", GoType.complex64⟩ ∧
    GoType.complex64.isReal = false ∧
    ¬ (∀ f ∈ cosine CROTG, f.ty.isReal = true) ∧
    ¬ (∀ f ∈ cosine CSROT, f.ty.isReal = true) ∧
    (⟨"alpha", GoType.float32⟩ : Field) ∈ CSSCAL.params ∧
    (⟨"alpha", GoType.complex64⟩ : Field) ∈ CSCAL.params ∧
    (⟨"alpha", GoType.float64⟩ : Field) ∈ ZDSCAL.params ∧
    (⟨"alpha", GoType.complex128⟩ : Field) ∈ ZSCAL.params ∧
    types SCNRM2.results = [GoType.float32] ∧
    types SCASUM.results = [GoType.float32] ∧
    types DZNRM2.results = [GoType.float64] ∧
    types DZASUM.results = [GoType.float64] := by
  refine ⟨?_, ?_, ?_, ?_, ?_, ?_, ?_, ?_, ?_, ?_, ?_, ?_, ?_, ?_, ?_, ?_, ?_, ?_, ?_, ?_,
    ?_, ?_, ?_, ?_⟩ <;> decide

/-- Claim C7: the rotation applies SROT, DROT and CSROT take the two buffers
`x` and `y` but return one slice only, `ry`; the modified rotation applies and
the swaps return both `rx` and `ry`. Every slice result of a Level 1 method is
a buffer parameter under the name `r` followed by the buffer's name, and each
Level 2 or Level 3 method returns exactly one slice, of the type of its last
buffer parameter. -/
theorem rot_returns_only_ry :
    (∀ m ∈ [SROT, DROT, CSROT],
      m ∈ BLAS ∧ (buffers m).map Field.name = ["x", "y"] ∧
      m.results = returned ((buffers m).drop 1) ∧ m.results.length = 1) ∧
    (∀ m ∈ [SROTM, DROTM, SSWAP, DSWAP, CSWAP, ZSWAP],
      m ∈ BLAS ∧ (buffers m).map Field.name = ["x", "y"] ∧
      m.results = returned (buffers m) ∧ m.results.length = 2) ∧
    (∀ m ∈ BLAS, m.level = 1 → ∀ r ∈ m.results, r.ty.isSlice = true →
      r ∈ returned (buffers m)) ∧
    (∀ m ∈ BLAS, 2 ≤ m.level → ∃ b ∈ (buffers m).getLast?, types m.results = [b.ty]) := by
  decide

/-- Claim C8, as stated, fails: no method is named CDOT. -/
theorem cdot_not_declared :
    Domain.C ∈ Domain.all ∧ "DOT" ∈ family ∧ Domain.C.letter ++ "DOT" = "CDOT" ∧
    "CDOT" ∉ methodNames := by
  decide

/-- Claim C8, amended: a method named by the domain letter followed by the
mnemonic is declared for all four domains when the mnemonic is SCAL, COPY,
AXPY, GEMV, GEMM or TRSM, for S and D only when it is DOT, NRM2, ASUM or SYMV,
and for no domain when it is AMAX. The other members of the family carry the
names CDOTU, CDOTC, ZDOTU, ZDOTC, SCNRM2, DZNRM2, SCASUM, DZASUM, ISAMAX,
IDAMAX, ICAMAX, IZAMAX, CHEMV and ZHEMV. -/
theorem family_names :
    (∀ d ∈ Domain.all, ∀ mn ∈ family,
      (d.letter ++ mn ∈ methodNames ↔
        (mn ∈ ["SCAL", "COPY", "AXPY", "GEMV", "GEMM", "TRSM"] ∨
         (d ∈ [Domain.S, Domain.D] ∧ mn ∈ ["DOT", "NRM2", "ASUM", "SYMV"])))) ∧
    (∀ nm ∈ ["CDOTU", "CDOTC", "ZDOTU", "ZDOTC", "SCNRM2", "DZNRM2", "SCASUM", "DZASUM",
             "ISAMAX", "IDAMAX", "ICAMAX", "IZAMAX", "CHEMV", "ZHEMV"],
      nm ∈ methodNames) := by
  decide

/-- Claim C9: apart from the rotations every operation family is declared for
each of the four domains. Level 1: swap, scale, copy, axpy, dot product,
Euclidean norm, sum of absolute values and index of maximum, each with a
vector operand of the domain's element type (the dot product is SDOT and DDOT
for the real domains, and both a DOTU and a DOTC for the complex ones). Level
2 and Level 3: the listed mnemonics under the listed prefixes, each at its
level, in its domain's section, with buffers of the domain's element type. -/
theorem families_declared :
    (∀ d ∈ Domain.all,
      ∀ what ∈ ["swap x and y", "x = a*x", "copy x into y", "y = a*x + y", "dot product",
                "Euclidean norm", "sum of absolute values", "index of max abs value"],
        declaresVec d what) ∧
    (∀ d ∈ [Domain.S, Domain.D], declaresVecNamed d (d.letter ++ "DOT") "dot product") ∧
    (∀ d ∈ [Domain.C, Domain.Z],
      declaresVecNamed d (d.letter ++ "DOTU") "dot product" ∧
      declaresVecNamed d (d.letter ++ "DOTC") "dot product, conjugating the first vector") ∧
    (∀ d ∈ Domain.all,
      ∀ mn ∈ ["GEMV", "GBMV", "TRMV", "TBMV", "TPMV", "TRSV", "TBSV", "TPSV"],
        declaresAt 2 d mn) ∧
    (∀ d ∈ [Domain.S, Domain.D],
      ∀ mn ∈ ["SYMV", "SBMV", "SPMV", "GER", "SYR", "SPR", "SYR2", "SPR2"],
        declaresAt 2 d mn) ∧
    (∀ d ∈ [Domain.C, Domain.Z],
      ∀ mn ∈ ["HEMV", "HBMV", "HPMV", "GERU", "GERC", "HER", "HPR", "HER2", "HPR2"],
        declaresAt 2 d mn) ∧
    (∀ d ∈ Domain.all,
      ∀ mn ∈ ["GEMM", "SYMM", "SYRK", "SYR2K", "TRMM", "TRSM"], declaresAt 3 d mn) ∧
    (∀ d ∈ [Domain.C, Domain.Z], ∀ mn ∈ ["HEMM", "HERK", "HER2K"], declaresAt 3 d mn) := by
  refine ⟨?_, ?_, ?_, ?_, ?_, ?_, ?_, ?_⟩ <;> decide

/-- Claim C10: in every method with a parameter `alpha`, `alpha` is a scalar,
every parameter before it is integer-typed and the parameter right after it is
the first buffer; in every method with a parameter `beta`, `beta` is a scalar
that comes after all input buffers and is followed by exactly the output
buffer and its increment or leading dimension, the last two parameters. -/
theorem argument_order (m : Method) (hm : m ∈ BLAS) :
    alphaConvention m ∧ betaConvention m := by
  revert m
  decide

/-- Claim C10 at SGEMV, which has both scalars: `alpha` at position 3 and
`beta` at position 8 of its eleven parameters. -/
theorem argument_order_witness :
    SGEMV ∈ BLAS ∧
    (splitAtName "alpha" SGEMV.params).map (fun s => s.1.length) = some 3 ∧
    (splitAtName "beta" SGEMV.params).map (fun s => s.1.length) = some 8 ∧
    alphaConvention SGEMV ∧ betaConvention SGEMV :=
  ⟨by decide, by decide, by decide, argument_order SGEMV (by decide)⟩

/-! ## Level 1 no-op contract, modifier codes, result types -/

/-- Claim C11: for every `n <= 0` the modelled Level 1 kernels are no-ops
whatever the other arguments (buffers of any length, any increments, zero
included, any scalars): swap, scale, copy, axpy and rotation apply return
their buffers unchanged, and the sum of absolute values and the Euclidean
norm return 0. -/
theorem level1_noop_of_nonpos {α ρ : Type} (A : Arith α ρ) (n : Int) (hn : n ≤ 0)
    (x y : List α) (incX incY : Int) (alpha c s : α) :
    swap n x incX y incY = some (x, y) ∧
    scal A n alpha x incX = some x ∧
    copy n x incX y incY = some y ∧
    axpy A n alpha x incX y incY = some y ∧
    rot A n x incX y incY c s = some (x, y) ∧
    asum A n x incX = some A.rzero ∧
    nrm2 A n x incX = some A.rzero := by
  simp [swap, scal, copy, axpy, rot, asum, nrm2, hn]

/-- Claim C11 at `n = -2` with a zero increment for `x` and buffers the views
would not fit: every kernel is a no-op. -/
theorem level1_noop_witness :
    (-2 : Int) ≤ 0 ∧
    swap (-2) [1, 2] 0 [(3 : Int)] 5 = some ([1, 2], [3]) ∧
    scal intArith (-2) 7 [1, 2] 0 = some [1, 2] ∧
    copy (-2) [1, 2] 0 [(3 : Int)] 5 = some [3] ∧
    axpy intArith (-2) 7 [1, 2] 0 [3] 5 = some [3] ∧
    rot intArith (-2) [1, 2] 0 [3] 5 3 4 = some ([1, 2], [3]) ∧
    asum intArith (-2) [1, 2] 0 = some 0 ∧
    nrm2 intArith (-2) [1, 2] 0 = some 0 :=
  ⟨by decide, level1_noop_of_nonpos intArith (-2) (by decide) [1, 2] [3] 0 5 7 3 4⟩

/-- The modelled kernels do their work when `n > 0`: scaling, a swap against
a backward view, `y := 2x + y`, the rotation of `(3, 4)` by `(3, 4)`, the sum
of absolute values of `[1, -7, 3]`; and they reject a zero increment on a
mutated vector and a view that does not fit its buffer. -/
theorem kernels_run :
    scal intArith 3 2 [1, 2, 3] 1 = some [2, 4, 6] ∧
    swap 2 [1, 2, 3] 1 [(4 : Int), 5, 6] (-1) = some ([6, 5, 3], [4, 2, 1]) ∧
    copy 3 [1, 2, 3] 1 [(4 : Int), 5, 6] (-1) = some [3, 2, 1] ∧
    axpy intArith 3 2 [1, 2, 3] 1 [4, 5, 6] 1 = some [6, 9, 12] ∧
    rot intArith 1 [3] 1 [4] 1 3 4 = some ([25], [0]) ∧
    asum intArith 3 [1, -7, 3] 1 = some 11 ∧
    nrm2 intArith 1 [-5] 1 = some 5 ∧
    scal intArith 1 2 [1, 2, 3] 0 = none ∧
    scal intArith 2 2 [1, 2, 3] 3 = none := by
  decide

/-- Claim C12: within a modifier the codes are pairwise distinct (the three
transpose codes, the two triangle codes, the two diagonal codes), but not
across modifiers: DiagU equals UploU, both the rune `U`, and DiagN equals
TransN, both the rune `N`. -/
theorem codes_distinct_within_modifier_only :
    TransN.value ≠ TransT.value ∧ TransN.value ≠ TransC.value ∧
    TransT.value ≠ TransC.value ∧
    UploU.value ≠ UploL.value ∧ DiagU.value ≠ DiagN.value ∧
    (∀ k ∈ Modifier.all, ((codes k).map Const.value).Nodup) ∧
    DiagU.value = UploU.value ∧ DiagU.value = 'U' ∧ DiagU.ty = UploU.ty ∧
    DiagN.value = TransN.value ∧ DiagN.value = 'N' ∧ DiagN.ty = TransN.ty ∧
    ¬ (consts.map Const.value).Nodup := by
  decide

/-- Claim C13: every result of every method of `BLAS` is a floating-point or
complex scalar, the `int` index of an index-of-maximum method, a slice or a
parameter record, and none has type `error` or `bool`. -/
theorem results_cannot_signal_failure (m : Method) (hm : m ∈ BLAS) (r : Field)
    (hr : r ∈ m.results) : plainResult m r ∧ r.ty ∉ failureTypes := by
  have h : ∀ m ∈ BLAS, ∀ r ∈ m.results, plainResult m r ∧ r.ty ∉ failureTypes := by
    decide
  exact h m hm r hr

/-- Claim C13 at the index result of ISAMAX. -/
theorem results_cannot_signal_failure_witness :
    ISAMAX ∈ BLAS ∧ (⟨"r", GoType.int⟩ : Field) ∈ ISAMAX.results ∧
    plainResult ISAMAX ⟨"r", GoType.int⟩ ∧ GoType.int ∉ failureTypes :=
  ⟨by decide, by decide,
   results_cannot_signal_failure ISAMAX (by decide) ⟨"r", GoType.int⟩ (by decide)⟩

end Blas
